import Mathlib

/-!
# Verification of the Hacked2026 stormwater engine

Shallow embedding of the numerical core of the repository:

* `DrainageCalculator` (src/unnamed/part_006): runoff coefficients,
  Rational-Method peak flow, Manning pipe sizing, IDF interpolation;
* `StormSimulationView` (src/app/src/components/StormSimulationView.tsx):
  Green-Ampt infiltration simulator driven by the SCS Type II hyetograph,
  plus its own IDF table and interpolation copy;
* `CostAnalysisView` (src/unnamed/part_007): a third IDF interpolation copy.

Rational-valued code (the simulator, land-cover arithmetic) is embedded over
`ℚ`, exactly; transcendental code (log-log IDF interpolation, Manning's
fractional power, Kirpich) is embedded over `ℝ`.  JavaScript `toFixed(k)`
display rounding on emitted simulation steps is modelled exactly as
round-to-nearest at `k` decimals.
-/

namespace Hacked2026

/-! ## Land-cover / runoff-coefficient model (src/unnamed/part_006) -/

/-- LID toggle set, from `interface LIDState` in `part_006`. -/
structure LIDState where
  greenRoof : Bool
  rainGarden : Bool
  permeablePavement : Bool
  bioswale : Bool

/-- `C_ROOF = 0.95` in `part_006`. -/
def C_ROOF : ℝ := 0.95

/-- `C_PAVEMENT = 0.90` in `part_006`. -/
def C_PAVEMENT : ℝ := 0.90

/-- `C_LAWN = 0.25` in `part_006`. -/
def C_LAWN : ℝ := 0.25

/-- `C_GREEN_ROOF = 0.40` in `part_006`. -/
def C_GREEN_ROOF : ℝ := 0.40

/-- `C_PERMEABLE_PAVE = 0.30` in `part_006`. -/
def C_PERMEABLE_PAVE : ℝ := 0.30

/-- `compositeC` from `part_006` lines 171-189: area-weighted runoff
coefficient, with green-roof / permeable-pavement substitution before
compositing, rain-garden 15% reduction after, then clamp to `[0.1, 0.95]`. -/
noncomputable def compositeC (buildingArea pavementArea lawnArea totalArea : ℝ)
    (lid : LIDState) : ℝ :=
  let roofC := if lid.greenRoof then 0.5 * C_GREEN_ROOF + 0.5 * C_ROOF else C_ROOF
  let paveC := if lid.permeablePavement then C_PERMEABLE_PAVE else C_PAVEMENT
  let C0 := (roofC * buildingArea + paveC * pavementArea + C_LAWN * lawnArea) / totalArea
  let C1 := if lid.rainGarden then C0 * 0.85 else C0
  max 0.1 (min C1 0.95)

/-! ## Pipe sizing (src/unnamed/part_006) -/

/-- `STANDARD_PIPES` from `part_006` line 121. -/
def STANDARD_PIPES : List ℝ := [75, 100, 125, 150, 200, 250, 300, 375, 450, 525, 600, 750, 900]

/-- `requiredPipeDiameter` (`part_006` lines 197-203): Manning's equation for a
circular pipe flowing full, inverted for diameter, in mm.
`D = (Q·n·10.079 / (π·√S))^0.375 · 1000` with `n = 0.013`, `S = 0.005`. -/
noncomputable def requiredPipeDiameter (Q : ℝ) : ℝ :=
  if Q ≤ 0 then 0
  else ((Q * 0.013 * 10.079) / (Real.pi * Real.sqrt 0.005)) ^ (0.375 : ℝ) * 1000

/-- The early-returning `for … of STANDARD_PIPES` loop in `roundUpPipe`:
first catalogue entry `≥ d`, if any. -/
noncomputable def findGE (d : ℝ) : List ℝ → Option ℝ
  | [] => none
  | s :: rest => if d ≤ s then some s else findGE d rest

/-- `roundUpPipe` (`part_006` lines 205-210): first standard diameter at least
`d_mm`, falling back to the largest catalogue entry (900). -/
noncomputable def roundUpPipe (d_mm : ℝ) : ℝ :=
  (findGE d_mm STANDARD_PIPES).getD 900

/-! ## SCS Type II distribution (StormSimulationView.tsx lines 29-35, 64-71) -/

/-- `SCS_TYPE_II` anchor pairs `(tFrac, cumulative depth frac)` from
`StormSimulationView.tsx`. -/
def SCS_TYPE_II : List (ℚ × ℚ) :=
  [(0,0),(0.042,0.01),(0.083,0.022),(0.125,0.035),(0.167,0.048),(0.208,0.063),
   (0.250,0.080),(0.292,0.098),(0.333,0.120),(0.375,0.147),(0.417,0.181),
   (0.438,0.204),(0.458,0.235),(0.479,0.283),(0.489,0.357),(0.500,0.663),
   (0.521,0.735),(0.542,0.772),(0.563,0.799),(0.583,0.820),(0.625,0.850),
   (0.667,0.880),(0.708,0.916),(0.750,0.936),(0.833,0.952),(0.917,0.976),(1,1)]

/-- The bracketing-segment loop of `interpolateSCS`: linear interpolation on
the first anchor segment containing `t` (early `return` in the source `for`). -/
def scsLoop (t : ℚ) : List (ℚ × ℚ) → Option ℚ
  | (t1, p1) :: (t2, p2) :: rest =>
      if t1 ≤ t ∧ t ≤ t2 then some (p1 + (t - t1) / (t2 - t1) * (p2 - p1))
      else scsLoop t ((t2, p2) :: rest)
  | _ => none

/-- `interpolateSCS` from `StormSimulationView.tsx` lines 64-71: clamp to
`[0,1]`, otherwise linear interpolation over `SCS_TYPE_II`; the source falls
through to `return 1` if no segment matches. -/
def interpolateSCS (tFrac : ℚ) : ℚ :=
  if tFrac ≤ 0 then 0
  else if 1 ≤ tFrac then 1
  else (scsLoop tFrac SCS_TYPE_II).getD 1

/-- Well-formedness of a piecewise-linear anchor list: strictly increasing
times, non-decreasing values. -/
def ScsChain (l : List (ℚ × ℚ)) : Prop :=
  List.Chain' (fun p q => p.1 < q.1 ∧ p.2 ≤ q.2) l

/-! ## Green-Ampt storm simulator (StormSimulationView.tsx lines 13-24, 73-116) -/

/-- Keys of the `GA_SOILS` record in `StormSimulationView.tsx`. -/
inductive SoilKey
  | sand | loamySand | sandyLoam | loam | siltLoam | sandyClayLoam
  | clayLoam | siltyClayLoam | clay
deriving DecidableEq

/-- Green-Ampt soil parameters: `Ks` (mm/hr), capillary suction `psi` (mm),
effective porosity and initial moisture content. -/
structure GASoil where
  Ks : ℚ
  psi : ℚ
  theta_e : ℚ
  theta_i : ℚ

/-- `GA_SOILS` table (Rawls et al. 1983) from `StormSimulationView.tsx`
lines 13-23. -/
def GA_SOILS : SoilKey → GASoil
  | .sand          => ⟨117.8, 49.5, 0.437, 0.10⟩
  | .loamySand     => ⟨29.9, 61.3, 0.437, 0.12⟩
  | .sandyLoam     => ⟨10.9, 110.1, 0.453, 0.15⟩
  | .loam          => ⟨3.4, 88.9, 0.463, 0.20⟩
  | .siltLoam      => ⟨6.5, 166.8, 0.501, 0.22⟩
  | .sandyClayLoam => ⟨1.5, 218.5, 0.398, 0.20⟩
  | .clayLoam      => ⟨1.0, 208.8, 0.464, 0.25⟩
  | .siltyClayLoam => ⟨1.0, 273.0, 0.471, 0.25⟩
  | .clay          => ⟨0.3, 316.3, 0.475, 0.30⟩

/-- A soil profile is valid when conductivity and suction are non-negative and
the moisture deficit `θe − θi` is non-negative. -/
def ValidSoil (g : GASoil) : Prop := 0 ≤ g.Ks ∧ 0 ≤ g.psi ∧ g.theta_i ≤ g.theta_e

/-- JavaScript `x.toFixed(k)` (re-parsed as a number by the unary `+` in the
source): round to nearest at `k` decimal places. -/
def toFixed (k : ℕ) (q : ℚ) : ℚ := (round (q * 10 ^ k) : ℚ) / 10 ^ k

/-- One emitted simulation slice, `interface SimStep` in the source (the
display-only `timeLabel` string is omitted). `rainfall`, `infiltration`,
`runoff` are rounded to 3 decimals, `intensity` and `infRate` to 1,
cumulative totals to 2, exactly as the source's `toFixed` calls do. -/
structure SimStep where
  time : ℚ
  rainfall : ℚ
  intensity : ℚ
  infiltration : ℚ
  infRate : ℚ
  runoff : ℚ
  cumRain : ℚ
  cumInf : ℚ
  cumRunoff : ℚ

/-- The mutable loop state of `runSimulation`:
`let cumF = 0.001, ponded = false, cumRain = 0, cumInf = 0, cumRunoff = 0`. -/
structure SimState where
  cumF : ℚ
  ponded : Bool
  cumRain : ℚ
  cumInf : ℚ
  cumRunoff : ℚ

/-- The loop-invariant derived inputs of `runSimulation` (computed once before
the `for` loop in the source). -/
structure SimParams where
  totalDepth : ℚ
  duration_min : ℚ
  dt_min : ℚ
  Ks : ℚ
  psi : ℚ
  Md : ℚ
  perviousFrac : ℚ
  imperviousFrac : ℚ

/-- Step rainfall depth: `(pEnd - pStart) * totalDepth`. -/
def rainStepOf (P : SimParams) (s : ℕ) : ℚ :=
  (interpolateSCS (((s : ℚ) + 1) * P.dt_min / P.duration_min)
    - interpolateSCS ((s : ℚ) * P.dt_min / P.duration_min)) * P.totalDepth

/-- Instantaneous intensity: `rainStep / dt_hr`. -/
def intensityOf (P : SimParams) (s : ℕ) : ℚ := rainStepOf P s / (P.dt_min / 60)

/-- Green-Ampt capacity `fp = Ks * (1 + psi*Md/cumF)`. -/
def fpOf (P : SimParams) (st : SimState) : ℚ := P.Ks * (1 + P.psi * P.Md / st.cumF)

/-- The unsaturated branch guard: `!ponded && intensity <= fp`. -/
def unsat (P : SimParams) (s : ℕ) (st : SimState) : Prop :=
  st.ponded = false ∧ intensityOf P s ≤ fpOf P st

instance (P : SimParams) (s : ℕ) (st : SimState) : Decidable (unsat P s st) :=
  inferInstanceAs (Decidable (_ ∧ _))

/-- Pervious-path infiltration for one step: all of the rainfall when
unsaturated, else `min (fp*dt_hr) rainStep`. -/
def pervInfOf (P : SimParams) (s : ℕ) (st : SimState) : ℚ :=
  if unsat P s st then rainStepOf P s
  else min (fpOf P st * (P.dt_min / 60)) (rainStepOf P s)

/-- Pervious-path runoff for one step: zero when unsaturated, else
`max 0 (rainStep - pervInf)`. -/
def pervRunoffOf (P : SimParams) (s : ℕ) (st : SimState) : ℚ :=
  if unsat P s st then 0 else max 0 (rainStepOf P s - pervInfOf P s st)

/-- `ponded` after the step: unchanged in the unsaturated branch, `true` in the
other branch (the source sets `ponded = true` there). -/
def pondedAfter (P : SimParams) (s : ℕ) (st : SimState) : Bool :=
  if unsat P s st then st.ponded else true

/-- State update of one loop iteration of `runSimulation`. -/
def nextState (P : SimParams) (s : ℕ) (st : SimState) : SimState :=
  { cumF := st.cumF + pervInfOf P s st
    ponded := pondedAfter P s st
    cumRain := st.cumRain + rainStepOf P s
    cumInf := st.cumInf + pervInfOf P s st * P.perviousFrac
    cumRunoff := st.cumRunoff +
      (pervRunoffOf P s st * P.perviousFrac + rainStepOf P s * P.imperviousFrac) }

/-- The `steps.push({...})` record of one loop iteration. -/
def emitStep (P : SimParams) (s : ℕ) (st : SimState) : SimStep :=
  { time := ((s : ℚ) + 1) * P.dt_min
    rainfall := toFixed 3 (rainStepOf P s)
    intensity := toFixed 1 (intensityOf P s)
    infiltration := toFixed 3 (pervInfOf P s st * P.perviousFrac)
    infRate := toFixed 1 (fpOf P st * P.perviousFrac)
    runoff := toFixed 3
      (pervRunoffOf P s st * P.perviousFrac + rainStepOf P s * P.imperviousFrac)
    cumRain := toFixed 2 (st.cumRain + rainStepOf P s)
    cumInf := toFixed 2 (st.cumInf + pervInfOf P s st * P.perviousFrac)
    cumRunoff := toFixed 2 (st.cumRunoff +
      (pervRunoffOf P s st * P.perviousFrac + rainStepOf P s * P.imperviousFrac)) }

/-- The `for (let s = 0; s < nSteps; s++)` loop: remaining step count, current
index, current state; emits each step paired with the post-step state. -/
def simTraceAux (P : SimParams) : ℕ → ℕ → SimState → List (SimStep × SimState)
  | 0, _, _ => []
  | n + 1, s, st =>
      (emitStep P s st, nextState P s st) :: simTraceAux P n (s + 1) (nextState P s st)

/-- `runSimulation` from `StormSimulationView.tsx` lines 80-116, with the
post-step state retained alongside each emitted step. -/
def runSimulationTrace (totalDepth duration_hr : ℚ) (soilKey : SoilKey)
    (imperviousFrac : ℚ) : List (SimStep × SimState) :=
  let soil := GA_SOILS soilKey
  let Md := soil.theta_e - soil.theta_i
  let perviousFrac := 1 - imperviousFrac
  let duration_min := duration_hr * 60
  let dt_min : ℚ := if duration_hr ≤ 1 then 2 else if duration_hr ≤ 6 then 5 else 10
  let nSteps : ℕ := ⌈duration_min / dt_min⌉₊
  simTraceAux
    ⟨totalDepth, duration_min, dt_min, soil.Ks, soil.psi, Md, perviousFrac, imperviousFrac⟩
    nSteps 0 ⟨1/1000, false, 0, 0, 0⟩

/-- The emitted `SimStep` list of `runSimulation`. -/
def runSimulation (totalDepth duration_hr : ℚ) (soilKey : SoilKey)
    (imperviousFrac : ℚ) : List SimStep :=
  (runSimulationTrace totalDepth duration_hr soilKey imperviousFrac).map Prod.fst

/-! ### Per-step simulator facts -/

/-- Parameter sanity for the simulator loop: non-negative depth, positive
durations, a valid soil, and `perviousFrac = 1 - imperviousFrac ∈ [0, 1]`. -/
def GoodParams (P : SimParams) : Prop :=
  0 ≤ P.totalDepth ∧ 0 < P.duration_min ∧ 0 < P.dt_min ∧
  0 ≤ P.Ks ∧ 0 ≤ P.psi ∧ 0 ≤ P.Md ∧
  P.perviousFrac = 1 - P.imperviousFrac ∧ 0 ≤ P.perviousFrac ∧ 0 ≤ P.imperviousFrac

/-- The parameter record built at the top of `runSimulation`. -/
def simParamsOf (totalDepth duration_hr : ℚ) (soilKey : SoilKey)
    (imperviousFrac : ℚ) : SimParams :=
  ⟨totalDepth, duration_hr * 60,
   if duration_hr ≤ 1 then 2 else if duration_hr ≤ 6 then 5 else 10,
   (GA_SOILS soilKey).Ks, (GA_SOILS soilKey).psi,
   (GA_SOILS soilKey).theta_e - (GA_SOILS soilKey).theta_i,
   1 - imperviousFrac, imperviousFrac⟩

/-! ## IDF tables and log-log interpolation

Three near-identical copies exist in the source: `interpolateIntensity` over
`IDF_DURATIONS`/`IDF_INTENSITIES` in `part_006`, and `getIntensity` over the
`IDF` record in `StormSimulationView.tsx` and again in `part_007`. -/

/-- `IDF_DURATIONS` from `part_006` line 102. -/
def IDF_DURATIONS : List ℝ := [5, 10, 15, 30, 60, 120, 360, 720, 1440]

/-- `IDF_RETURN_PERIODS` (same list in all three source copies). -/
def IDF_RETURN_PERIODS : List ℕ := [2, 5, 10, 25, 50, 100]

/-- `IDF_INTENSITIES` from `part_006` lines 104-111 (`Record<number, number[]>`;
unknown keys are absent, modelled as `none`). -/
def IDF_INTENSITIES : ℕ → Option (List ℝ)
  | 2 => some [65.5, 45.4, 36.0, 23.7, 15.4, 9.91, 4.90, 3.13, 2.00]
  | 5 => some [98.2, 67.7, 53.5, 35.1, 22.7, 14.5, 7.12, 4.53, 2.88]
  | 10 => some [119.9, 82.6, 65.2, 42.7, 27.5, 17.6, 8.62, 5.48, 3.48]
  | 25 => some [147.1, 101.1, 79.7, 52.1, 33.5, 21.4, 10.4, 6.62, 4.19]
  | 50 => some [167.4, 115.0, 90.6, 59.2, 38.1, 24.3, 11.8, 7.49, 4.75]
  | 100 => some [187.5, 128.7, 101.4, 66.2, 42.5, 27.1, 13.2, 8.35, 5.29]
  | _ => none

/-- The `IDF` record of `StormSimulationView.tsx` lines 41-48, with each row's
`(duration, intensity)` pairs in the ascending-duration order produced by the
source's `Object.keys(table).map(Number).sort((a,b)=>a-b)`. -/
def simIDF : ℕ → Option (List (ℝ × ℝ))
  | 2 => some [(5,82),(10,56),(15,45),(30,30),(60,18),(120,11),(360,5.0),(720,3.0),(1440,1.7)]
  | 5 => some [(5,110),(10,76),(15,61),(30,41),(60,25),(120,15),(360,6.8),(720,4.0),(1440,2.3)]
  | 10 => some [(5,128),(10,89),(15,72),(30,48),(60,29),(120,18),(360,8.0),(720,4.7),(1440,2.7)]
  | 25 => some [(5,153),(10,107),(15,86),(30,58),(60,35),(120,21),(360,9.6),(720,5.6),(1440,3.3)]
  | 50 => some [(5,172),(10,121),(15,97),(30,66),(60,40),(120,24),(360,11),(720,6.4),(1440,3.7)]
  | 100 => some [(5,192),(10,135),(15,109),(30,74),(60,44),(120,27),(360,12),(720,7.2),(1440,4.2)]
  | _ => none

/-- The `IDF` record of `CostAnalysisView` (`part_007` lines 37-44) — a third,
textually identical copy of the simulator's table. -/
def costIDF : ℕ → Option (List (ℝ × ℝ))
  | 2 => some [(5,82),(10,56),(15,45),(30,30),(60,18),(120,11),(360,5.0),(720,3.0),(1440,1.7)]
  | 5 => some [(5,110),(10,76),(15,61),(30,41),(60,25),(120,15),(360,6.8),(720,4.0),(1440,2.3)]
  | 10 => some [(5,128),(10,89),(15,72),(30,48),(60,29),(120,18),(360,8.0),(720,4.7),(1440,2.7)]
  | 25 => some [(5,153),(10,107),(15,86),(30,58),(60,35),(120,21),(360,9.6),(720,5.6),(1440,3.3)]
  | 50 => some [(5,172),(10,121),(15,97),(30,66),(60,40),(120,24),(360,11),(720,6.4),(1440,3.7)]
  | 100 => some [(5,192),(10,135),(15,109),(30,74),(60,44),(120,27),(360,12),(720,7.2),(1440,4.2)]
  | _ => none

/-- The log-log interpolation formula shared by all three copies:
`exp(log i1 + frac·(log i2 − log i1))` with
`frac = (log t − log d1)/(log d2 − log d1)`. -/
noncomputable def loglogInterp (d1 i1 d2 i2 t : ℝ) : ℝ :=
  Real.exp (Real.log i1 +
    (Real.log t - Real.log d1) / (Real.log d2 - Real.log d1) *
      (Real.log i2 - Real.log i1))

/-- The bracketing-segment `for` loop shared by all three copies: the first
anchor segment containing `t` (early `return`), `none` on fall-through. -/
noncomputable def idfLoop (t : ℝ) : List (ℝ × ℝ) → Option ℝ
  | (d1, i1) :: (d2, i2) :: rest =>
      if d1 ≤ t ∧ t ≤ d2 then some (loglogInterp d1 i1 d2 i2 t)
      else idfLoop t ((d2, i2) :: rest)
  | _ => none

/-- `interpolateIntensity` from `part_006` lines 143-161: clamp below the first
anchor and above the last, log-log interpolation in between; unknown return
period yields 0; the unreachable fall-through returns `intensities[0]`. -/
noncomputable def interpolateIntensity (tc : ℝ) (returnPeriod : ℕ) : ℝ :=
  match IDF_INTENSITIES returnPeriod with
  | none => 0
  | some is =>
    if tc ≤ IDF_DURATIONS.headI then is.headI
    else if IDF_DURATIONS.getLastD 0 ≤ tc then is.getLastD 0
    else (idfLoop tc (IDF_DURATIONS.zip is)).getD is.headI

/-- `getIntensity` from `StormSimulationView.tsx` lines 50-62: same clamps and
loop, but the unreachable fall-through returns 0. -/
noncomputable def getIntensity (rp : ℕ) (dur_min : ℝ) : ℝ :=
  match simIDF rp with
  | none => 0
  | some ds =>
    if dur_min ≤ ds.headI.1 then ds.headI.2
    else if (ds.getLastD (0, 0)).1 ≤ dur_min then (ds.getLastD (0, 0)).2
    else (idfLoop dur_min ds).getD 0

/-- `getIntensity` from `CostAnalysisView` (`part_007` lines 46-57), identical
to the simulator's copy but reading `costIDF`. -/
noncomputable def getIntensityCost (rp : ℕ) (dur : ℝ) : ℝ :=
  match costIDF rp with
  | none => 0
  | some ds =>
    if dur ≤ ds.headI.1 then ds.headI.2
    else if (ds.getLastD (0, 0)).1 ≤ dur then (ds.getLastD (0, 0)).2
    else (idfLoop dur ds).getD 0

/-! ### Log-log interpolation lemmas -/

/-- Well-formed IDF anchor row: strictly increasing durations, non-increasing
intensities. -/
def IdfChain (l : List (ℝ × ℝ)) : Prop :=
  List.Chain' (fun p q => p.1 < q.1 ∧ q.2 ≤ p.2) l

/-- All anchors have positive duration and intensity. -/
def IdfPos (l : List (ℝ × ℝ)) : Prop := ∀ p ∈ l, 0 < p.1 ∧ 0 < p.2

/-- The common clamp-then-interpolate shape of all three IDF functions, over an
anchor row `ps` with fall-through value `fb`. -/
noncomputable def clampShape (ps : List (ℝ × ℝ)) (fb t : ℝ) : ℝ :=
  if t ≤ ps.headI.1 then ps.headI.2
  else if (ps.getLastD (0, 0)).1 ≤ t then (ps.getLastD (0, 0)).2
  else (idfLoop t ps).getD fb

/-! ## Claim C5: the 85% building-area clamp -/

/-- `clampedBuilding` in `DrainageCalculator` (`part_006` line 233):
`Math.min(buildingArea || 0, lotSize * 0.85)` (the `|| 0` is JavaScript's
missing-value guard; the numeric value itself passes through). -/
noncomputable def clampedBuilding (lotSize buildingArea : ℝ) : ℝ :=
  min buildingArea (lotSize * 0.85)

/-- `pavementArea = lotSize * (pavementPct / 100)` (`part_006` line 234). -/
noncomputable def dcPavementArea (lotSize pavementPct : ℝ) : ℝ :=
  lotSize * (pavementPct / 100)

/-- `lawnArea = Math.max(0, lotSize - clampedBuilding - pavementArea)`
(`part_006` line 235). -/
noncomputable def dcLawnArea (lotSize buildingArea pavementPct : ℝ) : ℝ :=
  max 0 (lotSize - clampedBuilding lotSize buildingArea -
    dcPavementArea lotSize pavementPct)

/-- The composite coefficient `DrainageCalculator` computes for a LID state
(`part_006` lines 241-244). -/
noncomputable def dcC (lotSize buildingArea pavementPct : ℝ) (lid : LIDState) : ℝ :=
  compositeC (clampedBuilding lotSize buildingArea)
    (dcPavementArea lotSize pavementPct)
    (dcLawnArea lotSize buildingArea pavementPct) lotSize lid

/-- `imperviousFrac` of `StormSimulationView` line 128:
`lot > 0 ? Math.min((bldg + lot * paveFrac) / lot, 0.95) : 0.5` — note the
*raw* building area is used on this path. -/
def imperviousFracSim (lot bldg paveFrac : ℚ) : ℚ :=
  if 0 < lot then min ((bldg + lot * paveFrac) / lot) 0.95 else 0.5

/-! ## Claim C8: green roof lowers the design at the concrete site -/

/-- `calculateTc` (Kirpich, metric) from `part_006` lines 163-169:
`tc = 0.0195 · (1.4·√area)^0.77 · 0.02^(−0.385)`, clamped to `[5, 30]` min. -/
noncomputable def calculateTc (lotArea : ℝ) : ℝ :=
  max 5 (min (0.0195 * (Real.sqrt lotArea * 1.4) ^ (0.77 : ℝ) *
    (0.02 : ℝ) ^ (-(0.385) : ℝ)) 30)

/-- All four LID toggles off. -/
def noLid : LIDState := ⟨false, false, false, false⟩

/-- Only the green-roof toggle on. -/
def greenRoofOnly : LIDState := ⟨true, false, false, false⟩

/-- Baseline peak discharge per return period (`part_006` line 251):
`Q_base = (baseC · i · area_ha) / 360`. -/
noncomputable def dcQbase (lotSize buildingArea pavementPct : ℝ) (rp : ℕ) : ℝ :=
  dcC lotSize buildingArea pavementPct noLid *
    interpolateIntensity (calculateTc lotSize) rp * (lotSize / 10000) / 360

/-- LID peak discharge (`part_006` lines 252-253), with the 20% bioswale
attenuation when that toggle is on. -/
noncomputable def dcQlid (lotSize buildingArea pavementPct : ℝ) (lid : LIDState)
    (rp : ℕ) : ℝ :=
  let q := dcC lotSize buildingArea pavementPct lid *
    interpolateIntensity (calculateTc lotSize) rp * (lotSize / 10000) / 360
  if lid.bioswale then q * 0.80 else q

/-- `pipe_base` (`part_006` line 255). -/
noncomputable def dcPipeBase (lotSize buildingArea pavementPct : ℝ) (rp : ℕ) : ℝ :=
  roundUpPipe (requiredPipeDiameter (dcQbase lotSize buildingArea pavementPct rp))

/-- `pipe_lid` (`part_006` line 256). -/
noncomputable def dcPipeLid (lotSize buildingArea pavementPct : ℝ) (lid : LIDState)
    (rp : ℕ) : ℝ :=
  roundUpPipe (requiredPipeDiameter (dcQlid lotSize buildingArea pavementPct lid rp))

/-! ## Lemmas and claim theorems -/

/-! ### Pipe-sizing lemmas -/

lemma findGE_mem {d s : ℝ} : ∀ {l : List ℝ}, findGE d l = some s → s ∈ l := by
  intro l
  induction l with
  | nil => intro h; simp [findGE] at h
  | cons x rest ih =>
    intro h
    rw [findGE] at h
    split_ifs at h with hx
    · simp at h; simp [h]
    · exact List.mem_cons_of_mem _ (ih h)

lemma findGE_le {d s : ℝ} : ∀ {l : List ℝ}, findGE d l = some s → d ≤ s := by
  intro l
  induction l with
  | nil => intro h; simp [findGE] at h
  | cons x rest ih =>
    intro h
    rw [findGE] at h
    split_ifs at h with hx
    · simp at h; exact h ▸ hx
    · exact ih h

lemma findGE_mono {d₁ d₂ s₂ : ℝ} (hd : d₁ ≤ d₂) :
    ∀ {l : List ℝ}, List.Pairwise (· ≤ ·) l → findGE d₂ l = some s₂ →
      ∃ s₁, findGE d₁ l = some s₁ ∧ s₁ ≤ s₂ := by
  intro l
  induction l with
  | nil => intro _ h; simp [findGE] at h
  | cons x rest ih =>
    intro hp h
    rw [findGE] at h
    rw [findGE]
    split_ifs at h with hx
    · simp at h
      rw [if_pos (hd.trans hx)]
      exact ⟨x, rfl, le_of_eq h⟩
    · have h2 := (List.pairwise_cons.mp hp).2
      split_ifs with hx1
      · refine ⟨x, rfl, ?_⟩
        exact (List.pairwise_cons.mp hp).1 s₂ (findGE_mem h)
      · exact ih h2 h

lemma SP_pairwise : List.Pairwise (· ≤ ·) STANDARD_PIPES := by
  norm_num [STANDARD_PIPES, List.pairwise_cons]

lemma SP_le_900 : ∀ x ∈ STANDARD_PIPES, x ≤ 900 := by
  intro x hx
  fin_cases hx <;> norm_num

lemma roundUpPipe_mem (d : ℝ) : roundUpPipe d ∈ STANDARD_PIPES := by
  rw [roundUpPipe]
  cases h : findGE d STANDARD_PIPES with
  | none => simp [STANDARD_PIPES]
  | some s => simpa using findGE_mem h

lemma roundUpPipe_ge (d : ℝ) (hd : d ≤ 900) : d ≤ roundUpPipe d := by
  rw [roundUpPipe]
  cases h : findGE d STANDARD_PIPES with
  | none => simpa using hd
  | some s => simpa using findGE_le h

lemma roundUpPipe_of_gt (d : ℝ) (hd : 900 < d) : roundUpPipe d = 900 := by
  rw [roundUpPipe]
  cases h : findGE d STANDARD_PIPES with
  | none => simp
  | some s =>
    exfalso
    have h1 := findGE_le h
    have h2 := SP_le_900 s (findGE_mem h)
    linarith

lemma roundUpPipe_mono {d₁ d₂ : ℝ} (h : d₁ ≤ d₂) : roundUpPipe d₁ ≤ roundUpPipe d₂ := by
  rw [roundUpPipe, roundUpPipe]
  cases h2 : findGE d₂ STANDARD_PIPES with
  | none =>
    simp only [Option.getD_none]
    cases h1 : findGE d₁ STANDARD_PIPES with
    | none => simp
    | some s₁ => simpa using SP_le_900 s₁ (findGE_mem h1)
  | some s₂ =>
    obtain ⟨s₁, hs₁, hle⟩ := findGE_mono h SP_pairwise h2
    rw [hs₁]
    simpa using hle

lemma manning_den_pos : (0:ℝ) < Real.pi * Real.sqrt 0.005 :=
  mul_pos Real.pi_pos (Real.sqrt_pos.mpr (by norm_num))

lemma requiredPipeDiameter_nonneg (Q : ℝ) : 0 ≤ requiredPipeDiameter Q := by
  unfold requiredPipeDiameter
  split_ifs with h
  · exact le_refl 0
  · have hq : (0:ℝ) < Q := not_le.mp h
    have hb : (0:ℝ) ≤ (Q * 0.013 * 10.079) / (Real.pi * Real.sqrt 0.005) :=
      div_nonneg (by nlinarith) manning_den_pos.le
    exact mul_nonneg (Real.rpow_nonneg hb _) (by norm_num)

lemma requiredPipeDiameter_mono {Q₁ Q₂ : ℝ} (h : Q₁ ≤ Q₂) :
    requiredPipeDiameter Q₁ ≤ requiredPipeDiameter Q₂ := by
  have key : ∀ Q : ℝ, ¬ Q ≤ 0 →
      0 ≤ (Q * 0.013 * 10.079) / (Real.pi * Real.sqrt 0.005) := by
    intro Q hQ
    have hq : (0:ℝ) < Q := not_le.mp hQ
    exact div_nonneg (by nlinarith) manning_den_pos.le
  unfold requiredPipeDiameter
  split_ifs with h1 h2 h3
  · exact le_refl 0
  · exact mul_nonneg (Real.rpow_nonneg (key Q₂ h2) _) (by norm_num)
  · exact absurd (h.trans h3) h1
  · have harg : (Q₁ * 0.013 * 10.079) / (Real.pi * Real.sqrt 0.005)
        ≤ (Q₂ * 0.013 * 10.079) / (Real.pi * Real.sqrt 0.005) := by
      gcongr
    exact mul_le_mul_of_nonneg_right
      (Real.rpow_le_rpow (key Q₁ h1) harg (by norm_num)) (by norm_num)

/-! ## Claim C1: pipe selection vs. required diameter -/

/-- C1 fails as stated: at peak discharge `Q = 2` m³/s the required diameter
exceeds the catalogue maximum (900 mm), and `roundUpPipe` soft-ceilings to
900 mm, which is *below* the required diameter. -/
theorem C1_counterexample :
    roundUpPipe (requiredPipeDiameter 2) < requiredPipeDiameter 2 := by
  have hsqrt : Real.sqrt 0.005 < 0.071 := by
    rw [Real.sqrt_lt' (by norm_num)]
    norm_num
  have hpi : Real.pi < 3.15 := Real.pi_lt_d2
  have hden := manning_den_pos
  have hmul : Real.pi * Real.sqrt 0.005 < 3.15 * 0.071 :=
    mul_lt_mul'' hpi hsqrt Real.pi_pos.le (Real.sqrt_nonneg _)
  have hb : (1:ℝ) < (2 * 0.013 * 10.079) / (Real.pi * Real.sqrt 0.005) := by
    rw [one_lt_div hden]
    nlinarith
  have hrp : (1:ℝ) < ((2 * 0.013 * 10.079) / (Real.pi * Real.sqrt 0.005)) ^ (0.375 : ℝ) :=
    Real.one_lt_rpow hb (by norm_num)
  have h900 : (900:ℝ) < requiredPipeDiameter 2 := by
    unfold requiredPipeDiameter
    rw [if_neg (by norm_num)]
    nlinarith
  calc roundUpPipe (requiredPipeDiameter 2) = 900 := roundUpPipe_of_gt _ h900
    _ < requiredPipeDiameter 2 := h900

/-- C1 (amended): for every peak discharge `Q` the selected diameter
`roundUpPipe (requiredPipeDiameter Q)` is a member of the fixed catalogue;
it is `≥` the required diameter whenever the required diameter does not
exceed the catalogue maximum of 900 mm; beyond 900 mm the catalogue maximum
is returned (soft ceiling), which is below the required diameter. -/
theorem C1_pipe_catalogue (Q : ℝ) :
    roundUpPipe (requiredPipeDiameter Q) ∈ STANDARD_PIPES ∧
    (requiredPipeDiameter Q ≤ 900 →
      requiredPipeDiameter Q ≤ roundUpPipe (requiredPipeDiameter Q)) ∧
    (900 < requiredPipeDiameter Q → roundUpPipe (requiredPipeDiameter Q) = 900) :=
  ⟨roundUpPipe_mem _, fun h => roundUpPipe_ge _ h, fun h => roundUpPipe_of_gt _ h⟩

/-- Witness for C1 at `Q = 0` (required diameter 0 mm, selected 75 mm). -/
theorem C1_pipe_catalogue_witness :
    roundUpPipe (requiredPipeDiameter 0) ∈ STANDARD_PIPES ∧
    requiredPipeDiameter 0 ≤ roundUpPipe (requiredPipeDiameter 0) :=
  ⟨(C1_pipe_catalogue 0).1,
   (C1_pipe_catalogue 0).2.1 (by unfold requiredPipeDiameter; norm_num)⟩

/-! ## Claim C3: composite runoff-coefficient bounds -/

/-- C3: for all non-negative building/pavement/lawn areas, positive total lot
area, and any LID flag combination, the composite runoff coefficient lies in
`[0.1, 0.95]` (the final clamp in `compositeC` enforces this). -/
theorem C3_compositeC_bounds (buildingArea pavementArea lawnArea totalArea : ℝ)
    (hb : 0 ≤ buildingArea) (hp : 0 ≤ pavementArea) (hl : 0 ≤ lawnArea)
    (ht : 0 < totalArea) (lid : LIDState) :
    0.1 ≤ compositeC buildingArea pavementArea lawnArea totalArea lid ∧
    compositeC buildingArea pavementArea lawnArea totalArea lid ≤ 0.95 := by
  unfold compositeC
  refine ⟨le_max_left _ _, max_le (by norm_num) (min_le_right _ _)⟩

/-- Witness for C3 at the spec's concrete site (450 m² lot, 180 m² building,
15% pavement), no LID. -/
theorem C3_compositeC_bounds_witness :
    0.1 ≤ compositeC 180 67.5 202.5 450 ⟨false, false, false, false⟩ ∧
    compositeC 180 67.5 202.5 450 ⟨false, false, false, false⟩ ≤ 0.95 :=
  C3_compositeC_bounds 180 67.5 202.5 450 (by norm_num) (by norm_num) (by norm_num)
    (by norm_num) _

lemma scsChain_last_ge :
    ∀ {l : List (ℚ × ℚ)} {x : ℚ × ℚ}, ScsChain (x :: l) →
      x.2 ≤ ((x :: l).getLastD (0, 0)).2 := by
  intro l
  induction l with
  | nil => intro x _; exact le_refl _
  | cons y l' ih =>
    intro x h
    rcases List.chain'_cons.mp h with ⟨⟨_, hxy⟩, hyl⟩
    calc x.2 ≤ y.2 := hxy
      _ ≤ ((y :: l').getLastD (0, 0)).2 := ih hyl
      _ = ((x :: y :: l').getLastD (0, 0)).2 := by simp [List.getLastD_cons]

lemma segVal_bounds {t1 p1 t2 p2 t : ℚ} (h12 : t1 < t2) (hp : p1 ≤ p2)
    (ht1 : t1 ≤ t) (ht2 : t ≤ t2) :
    p1 ≤ p1 + (t - t1) / (t2 - t1) * (p2 - p1) ∧
    p1 + (t - t1) / (t2 - t1) * (p2 - p1) ≤ p2 := by
  have hu0 : 0 ≤ (t - t1) / (t2 - t1) := div_nonneg (by linarith) (by linarith)
  have hu1 : (t - t1) / (t2 - t1) ≤ 1 := (div_le_one (by linarith)).mpr (by linarith)
  constructor <;> nlinarith

lemma scsLoop_bounds :
    ∀ {l : List (ℚ × ℚ)} {x : ℚ × ℚ} {t v : ℚ}, ScsChain (x :: l) →
      scsLoop t (x :: l) = some v →
      x.2 ≤ v ∧ v ≤ ((x :: l).getLastD (0, 0)).2 := by
  intro l
  induction l with
  | nil => intro x t v _ h; simp [scsLoop] at h
  | cons y l' ih =>
    intro x t v hc h
    obtain ⟨t1, p1⟩ := x
    obtain ⟨t2, p2⟩ := y
    rcases List.chain'_cons.mp hc with ⟨⟨hxy1, hxy2⟩, hyl⟩
    rw [scsLoop] at h
    split_ifs at h with hseg
    · have hv := Option.some_injective _ h
      have hb := segVal_bounds hxy1 hxy2 hseg.1 hseg.2
      refine ⟨hv ▸ hb.1, ?_⟩
      have hlast : v ≤ ((((t2, p2) : ℚ × ℚ) :: l').getLastD (0, 0)).2 := by
        calc v = p1 + (t - t1) / (t2 - t1) * (p2 - p1) := hv.symm
          _ ≤ p2 := hb.2
          _ ≤ ((((t2, p2) : ℚ × ℚ) :: l').getLastD (0, 0)).2 := scsChain_last_ge hyl
      simpa [List.getLastD_cons] using hlast
    · have hb := ih hyl h
      refine ⟨hxy2.trans hb.1, ?_⟩
      simpa [List.getLastD_cons] using hb.2

lemma scsLoop_none_of_lt :
    ∀ {l : List (ℚ × ℚ)} {x : ℚ × ℚ} {t : ℚ}, ScsChain (x :: l) → t < x.1 →
      scsLoop t (x :: l) = none := by
  intro l
  induction l with
  | nil => intro x t _ _; rfl
  | cons y l' ih =>
    intro x t hc ht
    obtain ⟨t1, p1⟩ := x
    obtain ⟨t2, p2⟩ := y
    rcases List.chain'_cons.mp hc with ⟨⟨hxy1, _⟩, hyl⟩
    rw [scsLoop]
    rw [if_neg (by rintro ⟨h1, _⟩; exact absurd h1 (not_le.mpr ht))]
    exact ih hyl (ht.trans hxy1)

lemma scsLoop_isSome :
    ∀ {l : List (ℚ × ℚ)} {x : ℚ × ℚ} {t : ℚ}, ScsChain (x :: l) → l ≠ [] →
      x.1 ≤ t → t ≤ ((x :: l).getLastD (0, 0)).1 →
      ∃ v, scsLoop t (x :: l) = some v := by
  intro l
  induction l with
  | nil => intro x t _ hne _ _; exact absurd rfl hne
  | cons y l' ih =>
    intro x t hc _ hxt htl
    obtain ⟨t1, p1⟩ := x
    obtain ⟨t2, p2⟩ := y
    rcases List.chain'_cons.mp hc with ⟨⟨hxy1, _⟩, hyl⟩
    rw [scsLoop]
    by_cases hseg : t1 ≤ t ∧ t ≤ t2
    · exact ⟨_, if_pos hseg⟩
    · have ht2 : t2 < t := by
        rcases not_and_or.mp hseg with h | h
        · exact absurd hxt h
        · exact not_le.mp h
      rw [if_neg hseg]
      rcases l' with _ | ⟨z, l''⟩
      · exfalso
        simp only [List.getLastD_cons, List.getLastD_nil] at htl
        exact absurd htl (not_le.mpr ht2)
      · refine ih hyl (by simp) ht2.le ?_
        simpa [List.getLastD_cons] using htl

lemma scsLoop_mono :
    ∀ {l : List (ℚ × ℚ)} {x : ℚ × ℚ} {ta tb va vb : ℚ}, ScsChain (x :: l) →
      ta ≤ tb → scsLoop ta (x :: l) = some va → scsLoop tb (x :: l) = some vb →
      va ≤ vb := by
  intro l
  induction l with
  | nil => intro x ta tb va vb _ _ ha _; simp [scsLoop] at ha
  | cons y l' ih =>
    intro x ta tb va vb hc hab ha hb
    obtain ⟨t1, p1⟩ := x
    obtain ⟨t2, p2⟩ := y
    rcases List.chain'_cons.mp hc with ⟨⟨hxy1, hxy2⟩, hyl⟩
    rw [scsLoop] at ha hb
    split_ifs at ha hb with hsa hsb hsb'
    · have hva := Option.some_injective _ ha
      have hvb := Option.some_injective _ hb
      have h21 : (0:ℚ) < t2 - t1 := by linarith
      have hu : (ta - t1) / (t2 - t1) ≤ (tb - t1) / (t2 - t1) :=
        div_le_div_of_nonneg_right (by linarith) h21.le
      rw [← hva, ← hvb]
      nlinarith
    · have hvb := (scsLoop_bounds hyl hb).1
      have hva := Option.some_injective _ ha
      have hbnd := segVal_bounds hxy1 hxy2 hsa.1 hsa.2
      rw [← hva]
      exact hbnd.2.trans hvb
    · rcases not_and_or.mp hsa with hlt | hgt
      · have hlt' : ta < t1 := not_le.mp hlt
        have : scsLoop ta ((t2, p2) :: l') = none :=
          scsLoop_none_of_lt hyl (by simpa using hlt'.trans hxy1)
        rw [this] at ha
        exact absurd ha (by simp)
      · exact absurd (hab.trans hsb'.2) hgt
    · exact ih hyl hab ha hb

lemma scs_chain : ScsChain SCS_TYPE_II := by
  unfold ScsChain SCS_TYPE_II
  norm_num [List.chain'_cons, List.chain'_singleton]

lemma scs_lastD : SCS_TYPE_II.getLastD (0, 0) = (1, 1) := by
  unfold SCS_TYPE_II
  decide

lemma scsVal_nonneg (t : ℚ) : 0 ≤ (scsLoop t SCS_TYPE_II).getD 1 := by
  cases hsome : scsLoop t SCS_TYPE_II with
  | none => norm_num
  | some v =>
    have hb := scsLoop_bounds scs_chain hsome
    simpa using hb.1

lemma scsVal_le_one (t : ℚ) : (scsLoop t SCS_TYPE_II).getD 1 ≤ 1 := by
  cases hsome : scsLoop t SCS_TYPE_II with
  | none => norm_num
  | some v =>
    have hb := scsLoop_bounds scs_chain hsome
    have h2 := hb.2
    simp only [List.getLastD_cons, List.getLastD_nil] at h2
    simpa using h2

lemma interpolateSCS_nonneg (t : ℚ) : 0 ≤ interpolateSCS t := by
  rw [interpolateSCS]
  split_ifs
  · exact le_refl 0
  · norm_num
  · exact scsVal_nonneg t

lemma interpolateSCS_le_one (t : ℚ) : interpolateSCS t ≤ 1 := by
  rw [interpolateSCS]
  split_ifs
  · norm_num
  · exact le_refl 1
  · exact scsVal_le_one t

lemma interpolateSCS_mono {a b : ℚ} (hab : a ≤ b) :
    interpolateSCS a ≤ interpolateSCS b := by
  rw [interpolateSCS, interpolateSCS]
  split_ifs with ha0 hb0 hb1 ha1 hb0' hb1' hb0'' hb1''
  · exact le_refl 0
  · norm_num
  · exact scsVal_nonneg b
  · linarith
  · exact le_refl 1
  · linarith
  · linarith
  · exact scsVal_le_one a
  · have hA : ∃ va, scsLoop a SCS_TYPE_II = some va := by
      refine scsLoop_isSome scs_chain (by simp [SCS_TYPE_II]) ?_ ?_
      · show (0:ℚ) ≤ a
        linarith
      · simp only [List.getLastD_cons, List.getLastD_nil]
        show a ≤ 1
        linarith
    have hB : ∃ vb, scsLoop b SCS_TYPE_II = some vb := by
      refine scsLoop_isSome scs_chain (by simp [SCS_TYPE_II]) ?_ ?_
      · show (0:ℚ) ≤ b
        linarith
      · simp only [List.getLastD_cons, List.getLastD_nil]
        show b ≤ 1
        linarith
    obtain ⟨va, hva⟩ := hA
    obtain ⟨vb, hvb⟩ := hB
    rw [hva, hvb]
    simpa using scsLoop_mono scs_chain hab hva hvb

/-! ### Rounding helpers -/

lemma round_mono {a b : ℚ} (h : a ≤ b) : round a ≤ round b := by
  rw [round_eq, round_eq]
  exact Int.floor_le_floor (by linarith)

lemma toFixed_mono (k : ℕ) {a b : ℚ} (h : a ≤ b) : toFixed k a ≤ toFixed k b := by
  unfold toFixed
  have hpow : (0:ℚ) < 10 ^ k := by positivity
  have hr : round (a * 10 ^ k) ≤ round (b * 10 ^ k) :=
    round_mono (mul_le_mul_of_nonneg_right h hpow.le)
  exact div_le_div_of_nonneg_right (by exact_mod_cast hr) hpow.le

lemma abs_toFixed_sub (k : ℕ) (q : ℚ) : |toFixed k q - q| ≤ 1 / (2 * 10 ^ k) := by
  unfold toFixed
  have hpow : (0:ℚ) < 10 ^ k := by positivity
  have h := abs_sub_round (q * 10 ^ k)
  have heq : (round (q * 10 ^ k) : ℚ) / 10 ^ k - q
      = -(q * 10 ^ k - (round (q * 10 ^ k) : ℚ)) / 10 ^ k := by
    field_simp
    ring
  rw [heq, abs_div, abs_neg, abs_of_pos hpow]
  calc |q * 10 ^ k - (round (q * 10 ^ k) : ℚ)| / 10 ^ k
      ≤ (1 / 2) / 10 ^ k := div_le_div_of_nonneg_right h hpow.le
    _ = 1 / (2 * 10 ^ k) := by rw [div_div]

lemma massBound {r i o : ℚ} (h : r = i + o) :
    |toFixed 3 r - (toFixed 3 i + toFixed 3 o)| ≤ 3 / 2000 := by
  have hr := abs_toFixed_sub 3 r
  have hi := abs_toFixed_sub 3 i
  have ho := abs_toFixed_sub 3 o
  norm_num at hr hi ho
  have e : toFixed 3 r - (toFixed 3 i + toFixed 3 o)
      = (toFixed 3 r - r) - (toFixed 3 i - i) - (toFixed 3 o - o) := by
    rw [h]; ring
  rw [e]
  have h1 : |(toFixed 3 r - r) - (toFixed 3 i - i) - (toFixed 3 o - o)|
      ≤ |(toFixed 3 r - r) - (toFixed 3 i - i)| + |toFixed 3 o - o| := abs_sub _ _
  have h2 : |(toFixed 3 r - r) - (toFixed 3 i - i)|
      ≤ |toFixed 3 r - r| + |toFixed 3 i - i| := abs_sub _ _
  linarith

lemma rainStep_nonneg {P : SimParams} (hP : GoodParams P) (s : ℕ) :
    0 ≤ rainStepOf P s := by
  obtain ⟨htd, hdur, hdt, -⟩ := hP
  unfold rainStepOf
  have hmono : interpolateSCS ((s : ℚ) * P.dt_min / P.duration_min)
      ≤ interpolateSCS (((s : ℚ) + 1) * P.dt_min / P.duration_min) := by
    apply interpolateSCS_mono
    apply div_le_div_of_nonneg_right ?_ hdur.le
    nlinarith [Nat.cast_nonneg (α := ℚ) s]
  nlinarith

lemma fp_nonneg {P : SimParams} (hP : GoodParams P) {st : SimState}
    (hF : 0 < st.cumF) : 0 ≤ fpOf P st := by
  obtain ⟨-, -, -, hKs, hpsi, hMd, -⟩ := hP
  unfold fpOf
  have hdiv : 0 ≤ P.psi * P.Md / st.cumF := div_nonneg (mul_nonneg hpsi hMd) hF.le
  nlinarith

lemma pervInf_nonneg {P : SimParams} (hP : GoodParams P) (s : ℕ) {st : SimState}
    (hF : 0 < st.cumF) : 0 ≤ pervInfOf P s st := by
  unfold pervInfOf
  split_ifs
  · exact rainStep_nonneg hP s
  · refine le_min ?_ (rainStep_nonneg hP s)
    exact mul_nonneg (fp_nonneg hP hF) (div_nonneg hP.2.2.1.le (by norm_num))

lemma pervInf_le_rain (P : SimParams) (s : ℕ) (st : SimState) :
    pervInfOf P s st ≤ rainStepOf P s := by
  unfold pervInfOf
  split_ifs
  · exact le_refl _
  · exact min_le_right _ _

lemma pervRunoff_nonneg (P : SimParams) (s : ℕ) (st : SimState) :
    0 ≤ pervRunoffOf P s st := by
  unfold pervRunoffOf
  split_ifs
  · exact le_refl 0
  · exact le_max_left _ _

lemma perv_mass (P : SimParams) (s : ℕ) (st : SimState) :
    pervInfOf P s st + pervRunoffOf P s st = rainStepOf P s := by
  unfold pervRunoffOf pervInfOf
  split_ifs with h
  · ring
  · have h1 : min (fpOf P st * (P.dt_min / 60)) (rainStepOf P s) ≤ rainStepOf P s :=
      min_le_right _ _
    rw [max_eq_right (by linarith)]
    ring

lemma runoffStep_nonneg {P : SimParams} (hP : GoodParams P) (s : ℕ) {st : SimState} :
    0 ≤ pervRunoffOf P s st * P.perviousFrac + rainStepOf P s * P.imperviousFrac := by
  have h1 := pervRunoff_nonneg P s st
  have h2 := rainStep_nonneg hP s
  obtain ⟨-, -, -, -, -, -, -, hperv, himp⟩ := hP
  nlinarith

lemma cumF_next {P : SimParams} (hP : GoodParams P) (s : ℕ) {st : SimState}
    (hF : 0 < st.cumF) :
    st.cumF ≤ (nextState P s st).cumF ∧ 0 < (nextState P s st).cumF := by
  have h1 := pervInf_nonneg hP s hF
  constructor
  · show st.cumF ≤ st.cumF + pervInfOf P s st
    linarith
  · show 0 < st.cumF + pervInfOf P s st
    linarith

lemma pondedAfter_mono {P : SimParams} {s : ℕ} {st : SimState}
    (hp : st.ponded = true) : pondedAfter P s st = true := by
  unfold pondedAfter
  split_ifs with h
  · exact absurd h.1 (by simp [hp])
  · rfl

lemma fp_antitone {P : SimParams} (hP : GoodParams P) {st st' : SimState}
    (h : st.cumF ≤ st'.cumF) (hF : 0 < st.cumF) : fpOf P st' ≤ fpOf P st := by
  obtain ⟨-, -, -, hKs, hpsi, hMd, -⟩ := hP
  unfold fpOf
  have hdiv : P.psi * P.Md / st'.cumF ≤ P.psi * P.Md / st.cumF :=
    div_le_div_of_nonneg_left (mul_nonneg hpsi hMd) hF h
  nlinarith

/-! ### Trace-level invariants -/

lemma trace_ponded_all {P : SimParams} :
    ∀ (n s : ℕ) (st : SimState), st.ponded = true →
      ∀ e ∈ simTraceAux P n s st, e.2.ponded = true := by
  intro n
  induction n with
  | zero => intro s st _ e he; simp [simTraceAux] at he
  | succ m ih =>
    intro s st hp e he
    rw [simTraceAux] at he
    rcases List.mem_cons.mp he with rfl | he'
    · exact pondedAfter_mono hp
    · exact ih (s + 1) (nextState P s st) (pondedAfter_mono hp) e he'

lemma trace_ponded_mono {P : SimParams} :
    ∀ (n s : ℕ) (st : SimState) (i j : ℕ) (hij : i ≤ j)
      (hj : j < (simTraceAux P n s st).length),
      ((simTraceAux P n s st).get ⟨i, lt_of_le_of_lt hij hj⟩).2.ponded = true →
      ((simTraceAux P n s st).get ⟨j, hj⟩).2.ponded = true := by
  intro n
  induction n with
  | zero =>
    intro s st i j hij hj
    rw [simTraceAux] at hj
    simp at hj
  | succ m ih =>
    intro s st i j hij hj hpond
    cases i with
    | zero =>
      cases j with
      | zero => exact hpond
      | succ j' =>
        have h0 : (nextState P s st).ponded = true := by
          simpa [simTraceAux] using hpond
        have hj' : j' < (simTraceAux P m (s + 1) (nextState P s st)).length := by
          have := hj
          rw [simTraceAux] at this
          simpa using this
        have hmem := List.get_mem (simTraceAux P m (s + 1) (nextState P s st)) j' hj'
        have hall := trace_ponded_all m (s + 1) (nextState P s st) h0 _ hmem
        simpa [simTraceAux] using hall
    | succ i' =>
      cases j with
      | zero => omega
      | succ j' =>
        have hj' : j' < (simTraceAux P m (s + 1) (nextState P s st)).length := by
          have := hj
          rw [simTraceAux] at this
          simpa using this
        have hpond' :
            ((simTraceAux P m (s + 1) (nextState P s st)).get
              ⟨i', lt_of_le_of_lt (Nat.succ_le_succ_iff.mp hij) hj'⟩).2.ponded = true := by
          simpa [simTraceAux] using hpond
        have := ih (s + 1) (nextState P s st) i' j' (Nat.succ_le_succ_iff.mp hij) hj' hpond'
        simpa [simTraceAux] using this

lemma trace_mass {P : SimParams} (hP : GoodParams P) :
    ∀ (n s : ℕ) (st : SimState), 0 < st.cumF →
      ∀ e ∈ simTraceAux P n s st,
        |e.1.rainfall - (e.1.infiltration + e.1.runoff)| ≤ 3 / 2000 := by
  intro n
  induction n with
  | zero => intro s st _ e he; simp [simTraceAux] at he
  | succ m ih =>
    intro s st hF e he
    rw [simTraceAux] at he
    rcases List.mem_cons.mp he with rfl | he'
    · have hm := perv_mass P s st
      have hpf := hP.2.2.2.2.2.2.1
      have hr : rainStepOf P s
          = pervInfOf P s st * P.perviousFrac
            + (pervRunoffOf P s st * P.perviousFrac + rainStepOf P s * P.imperviousFrac) := by
        rw [hpf]
        linear_combination (P.imperviousFrac - 1) * hm
      exact massBound hr
    · exact ih (s + 1) (nextState P s st) (cumF_next hP s hF).2 e he'

lemma trace_chain_cumRain {P : SimParams} (hP : GoodParams P) :
    ∀ (n s : ℕ) (st : SimState),
      List.Chain' (fun a b => a ≤ b)
        (toFixed 2 st.cumRain :: (simTraceAux P n s st).map (fun e => e.1.cumRain)) := by
  intro n
  induction n with
  | zero => intro s st; simp [simTraceAux]
  | succ m ih =>
    intro s st
    rw [simTraceAux]
    simp only [List.map_cons]
    rw [List.chain'_cons]
    constructor
    · exact toFixed_mono 2 (by nlinarith [rainStep_nonneg hP s])
    · exact ih (s + 1) (nextState P s st)

lemma trace_chain_cumInf {P : SimParams} (hP : GoodParams P) :
    ∀ (n s : ℕ) (st : SimState), 0 < st.cumF →
      List.Chain' (fun a b => a ≤ b)
        (toFixed 2 st.cumInf :: (simTraceAux P n s st).map (fun e => e.1.cumInf)) := by
  intro n
  induction n with
  | zero => intro s st _; simp [simTraceAux]
  | succ m ih =>
    intro s st hF
    rw [simTraceAux]
    simp only [List.map_cons]
    rw [List.chain'_cons]
    constructor
    · apply toFixed_mono 2
      have h1 := pervInf_nonneg hP s hF
      have h2 := hP.2.2.2.2.2.2.2.1
      nlinarith
    · exact ih (s + 1) (nextState P s st) (cumF_next hP s hF).2

lemma trace_chain_cumRunoff {P : SimParams} (hP : GoodParams P) :
    ∀ (n s : ℕ) (st : SimState), 0 < st.cumF →
      List.Chain' (fun a b => a ≤ b)
        (toFixed 2 st.cumRunoff :: (simTraceAux P n s st).map (fun e => e.1.cumRunoff)) := by
  intro n
  induction n with
  | zero => intro s st _; simp [simTraceAux]
  | succ m ih =>
    intro s st hF
    rw [simTraceAux]
    simp only [List.map_cons]
    rw [List.chain'_cons]
    constructor
    · exact toFixed_mono 2 (by nlinarith [@runoffStep_nonneg P hP s st])
    · exact ih (s + 1) (nextState P s st) (cumF_next hP s hF).2

lemma trace_chain_cumF {P : SimParams} (hP : GoodParams P) :
    ∀ (n s : ℕ) (st : SimState), 0 < st.cumF →
      List.Chain' (fun a b => a ≤ b)
        (st.cumF :: (simTraceAux P n s st).map (fun e => e.2.cumF)) := by
  intro n
  induction n with
  | zero => intro s st _; simp [simTraceAux]
  | succ m ih =>
    intro s st hF
    rw [simTraceAux]
    simp only [List.map_cons]
    rw [List.chain'_cons]
    constructor
    · exact (cumF_next hP s hF).1
    · exact ih (s + 1) (nextState P s st) (cumF_next hP s hF).2

lemma trace_chain_infRate {P : SimParams} (hP : GoodParams P) :
    ∀ (n s : ℕ) (st : SimState), 0 < st.cumF →
      List.Chain' (fun a b => b.infRate ≤ a.infRate)
        ((simTraceAux P n s st).map Prod.fst) := by
  intro n
  induction n with
  | zero => intro s st _; simp [simTraceAux]
  | succ m ih =>
    intro s st hF
    rw [simTraceAux]
    simp only [List.map_cons]
    cases m with
    | zero => simp [simTraceAux]
    | succ m' =>
      rw [simTraceAux]
      simp only [List.map_cons]
      rw [List.chain'_cons]
      constructor
      · show toFixed 1 (fpOf P (nextState P s st) * P.perviousFrac)
            ≤ toFixed 1 (fpOf P st * P.perviousFrac)
        apply toFixed_mono 1
        apply mul_le_mul_of_nonneg_right
          (fp_antitone hP (cumF_next hP s hF).1 hF) hP.2.2.2.2.2.2.2.1
      · have htail := ih (s + 1) (nextState P s st) (cumF_next hP s hF).2
        rw [simTraceAux] at htail
        simpa using htail

lemma runSimulationTrace_eq (td dh : ℚ) (k : SoilKey) (imp : ℚ) :
    runSimulationTrace td dh k imp =
      simTraceAux (simParamsOf td dh k imp)
        ⌈dh * 60 / (simParamsOf td dh k imp).dt_min⌉₊ 0 ⟨1/1000, false, 0, 0, 0⟩ := rfl

lemma goodParams_of (td dh : ℚ) (k : SoilKey) (imp : ℚ)
    (htd : 0 ≤ td) (hdh : 0 < dh) (hsoil : ValidSoil (GA_SOILS k))
    (h0 : 0 ≤ imp) (h1 : imp ≤ 1) : GoodParams (simParamsOf td dh k imp) := by
  obtain ⟨hKs, hpsi, hMd⟩ := hsoil
  refine ⟨htd, by show (0:ℚ) < dh * 60; linarith, ?_, hKs, hpsi, by simpa [simParamsOf] using sub_nonneg.mpr hMd,
    rfl, by simpa [simParamsOf] using sub_nonneg.mpr h1, h0⟩
  show (0:ℚ) < if dh ≤ 1 then 2 else if dh ≤ 6 then 5 else 10
  split_ifs <;> norm_num

lemma simTraceAux_length (P : SimParams) :
    ∀ (n s : ℕ) (st : SimState), (simTraceAux P n s st).length = n := by
  intro n
  induction n with
  | zero => intro s st; rfl
  | succ m ih =>
    intro s st
    rw [simTraceAux]
    simp [ih]

/-! ## Claim C2: per-step mass balance and monotone cumulative totals -/

/-- C2: in every run of `runSimulation` with positive total depth, positive
duration, a valid soil profile and impervious fraction in `[0,1]`, every
emitted step satisfies `rainfall ≈ infiltration + runoff` (within the 0.0015
tolerance induced by the source's 3-decimal `toFixed` rounding; the underlying
rational quantities balance exactly), and the emitted cumulative rainfall,
infiltration and runoff series are non-decreasing. -/
theorem C2_mass_balance_and_monotone_totals
    (totalDepth duration_hr imperviousFrac : ℚ) (soilKey : SoilKey)
    (htd : 0 < totalDepth) (hdh : 0 < duration_hr)
    (hsoil : ValidSoil (GA_SOILS soilKey))
    (h0 : 0 ≤ imperviousFrac) (h1 : imperviousFrac ≤ 1) :
    (∀ step ∈ runSimulation totalDepth duration_hr soilKey imperviousFrac,
      |step.rainfall - (step.infiltration + step.runoff)| ≤ 3 / 2000) ∧
    List.Chain' (fun a b => a ≤ b)
      ((runSimulation totalDepth duration_hr soilKey imperviousFrac).map SimStep.cumRain) ∧
    List.Chain' (fun a b => a ≤ b)
      ((runSimulation totalDepth duration_hr soilKey imperviousFrac).map SimStep.cumInf) ∧
    List.Chain' (fun a b => a ≤ b)
      ((runSimulation totalDepth duration_hr soilKey imperviousFrac).map SimStep.cumRunoff) := by
  have hP := goodParams_of totalDepth duration_hr soilKey imperviousFrac
    htd.le hdh hsoil h0 h1
  have hF : (0:ℚ) < (⟨1/1000, false, 0, 0, 0⟩ : SimState).cumF := by norm_num
  refine ⟨?_, ?_, ?_, ?_⟩
  · intro step hstep
    rw [runSimulation, List.mem_map] at hstep
    obtain ⟨e, he, rfl⟩ := hstep
    exact trace_mass hP _ _ _ hF e he
  · rw [runSimulation, List.map_map]
    exact (trace_chain_cumRain hP _ _ _).tail
  · rw [runSimulation, List.map_map]
    exact (trace_chain_cumInf hP _ _ _ hF).tail
  · rw [runSimulation, List.map_map]
    exact (trace_chain_cumRunoff hP _ _ _ hF).tail

/-- Witness for C2: a 10 mm, 1-hour storm on clay with impervious
fraction 1/2. -/
theorem C2_mass_balance_witness :
    (∀ step ∈ runSimulation 10 1 SoilKey.clay (1/2),
      |step.rainfall - (step.infiltration + step.runoff)| ≤ 3 / 2000) ∧
    List.Chain' (fun a b => a ≤ b)
      ((runSimulation 10 1 SoilKey.clay (1/2)).map SimStep.cumRain) ∧
    List.Chain' (fun a b => a ≤ b)
      ((runSimulation 10 1 SoilKey.clay (1/2)).map SimStep.cumInf) ∧
    List.Chain' (fun a b => a ≤ b)
      ((runSimulation 10 1 SoilKey.clay (1/2)).map SimStep.cumRunoff) :=
  C2_mass_balance_and_monotone_totals 10 1 (1/2) SoilKey.clay (by norm_num) (by norm_num)
    (by refine ⟨?_, ?_, ?_⟩ <;> norm_num [GA_SOILS]) (by norm_num) (by norm_num)

lemma simTraceAux_get_zero (P : SimParams) (n s : ℕ) (st : SimState) :
    (simTraceAux P (n + 1) s st).get? 0 = some (emitStep P s st, nextState P s st) := by
  rw [simTraceAux]
  rfl

lemma simTraceAux_get_succ (P : SimParams) (n s : ℕ) (st : SimState) (i : ℕ) :
    (simTraceAux P (n + 1) s st).get? (i + 1) =
      (simTraceAux P n (s + 1) (nextState P s st)).get? i := by
  rw [simTraceAux]
  rfl

/-! ## Claim C4: ponding is irreversible within a run -/

/-- C4: within a single run of `runSimulation`, once a step's post-state is
ponded, every later step's post-state is ponded as well — equivalently, the
unsaturated all-rain-infiltrates branch is never taken again (the source takes
that branch at a step iff the step's post-state is not ponded, since the other
branch always sets `ponded = true`). -/
theorem C4_ponding_irreversible
    (totalDepth duration_hr imperviousFrac : ℚ) (soilKey : SoilKey)
    (i j : ℕ) (hij : i ≤ j) (ei ej : SimStep × SimState)
    (hi : (runSimulationTrace totalDepth duration_hr soilKey imperviousFrac).get? i = some ei)
    (hj : (runSimulationTrace totalDepth duration_hr soilKey imperviousFrac).get? j = some ej)
    (hpond : ei.2.ponded = true) : ej.2.ponded = true := by
  obtain ⟨hilen, hig⟩ := List.get?_eq_some.mp hi
  obtain ⟨hjlen, hjg⟩ := List.get?_eq_some.mp hj
  have hpond' :
      ((runSimulationTrace totalDepth duration_hr soilKey imperviousFrac).get
        ⟨i, lt_of_le_of_lt hij hjlen⟩).2.ponded = true := by
    rw [show ((runSimulationTrace totalDepth duration_hr soilKey imperviousFrac).get
      ⟨i, lt_of_le_of_lt hij hjlen⟩) = ei from hig]
    exact hpond
  rw [← hjg]
  exact trace_ponded_mono _ _ _ i j hij hjlen hpond'

/-- Witness for C4: a 100 m storm depth over 4 minutes on sand ponds at the
very first step (index 0), and the theorem then forces step 1's post-state to
be ponded as well — which is what this closed statement asserts. -/
theorem C4_ponding_irreversible_witness :
    (nextState (simParamsOf 100000 (1/15) SoilKey.sand (1/2)) 1
      (nextState (simParamsOf 100000 (1/15) SoilKey.sand (1/2)) 0
        ⟨1/1000, false, 0, 0, 0⟩)).ponded = true := by
  have hn : ⌈(1/15 : ℚ) * 60 / (simParamsOf 100000 (1/15) SoilKey.sand (1/2)).dt_min⌉₊ = 2 := by
    norm_num [simParamsOf]
  have hi : (runSimulationTrace 100000 (1/15) SoilKey.sand (1/2)).get? 0
      = some (emitStep (simParamsOf 100000 (1/15) SoilKey.sand (1/2)) 0 ⟨1/1000, false, 0, 0, 0⟩,
          nextState (simParamsOf 100000 (1/15) SoilKey.sand (1/2)) 0 ⟨1/1000, false, 0, 0, 0⟩) := by
    rw [runSimulationTrace_eq, hn]
    exact simTraceAux_get_zero _ 1 0 _
  have hj : (runSimulationTrace 100000 (1/15) SoilKey.sand (1/2)).get? 1
      = some (emitStep (simParamsOf 100000 (1/15) SoilKey.sand (1/2)) 1
            (nextState (simParamsOf 100000 (1/15) SoilKey.sand (1/2)) 0 ⟨1/1000, false, 0, 0, 0⟩),
          nextState (simParamsOf 100000 (1/15) SoilKey.sand (1/2)) 1
            (nextState (simParamsOf 100000 (1/15) SoilKey.sand (1/2)) 0
              ⟨1/1000, false, 0, 0, 0⟩)) := by
    rw [runSimulationTrace_eq, hn]
    calc (simTraceAux (simParamsOf 100000 (1/15) SoilKey.sand (1/2)) 2 0
            ⟨1/1000, false, 0, 0, 0⟩).get? 1
        = (simTraceAux (simParamsOf 100000 (1/15) SoilKey.sand (1/2)) 1 1
            (nextState (simParamsOf 100000 (1/15) SoilKey.sand (1/2)) 0
              ⟨1/1000, false, 0, 0, 0⟩)).get? 0 :=
          simTraceAux_get_succ _ 1 0 _ 0
      _ = _ := simTraceAux_get_zero _ 0 1 _
  have hfp : fpOf (simParamsOf 100000 (1/15) SoilKey.sand (1/2)) ⟨1/1000, false, 0, 0, 0⟩
      = 3930397/2 := by
    norm_num [fpOf, simParamsOf, GA_SOILS]
  have hint : intensityOf (simParamsOf 100000 (1/15) SoilKey.sand (1/2)) 0 = 1989000 := by
    rw [intensityOf, rainStepOf]
    norm_num [simParamsOf]
    rw [show interpolateSCS (1/2) = 663/1000 by
        rw [interpolateSCS]; norm_num [scsLoop, SCS_TYPE_II],
      show interpolateSCS 0 = 0 by norm_num [interpolateSCS]]
    norm_num
  have hpond : (nextState (simParamsOf 100000 (1/15) SoilKey.sand (1/2)) 0
      ⟨1/1000, false, 0, 0, 0⟩).ponded = true := by
    show pondedAfter (simParamsOf 100000 (1/15) SoilKey.sand (1/2)) 0
      ⟨1/1000, false, 0, 0, 0⟩ = true
    unfold pondedAfter
    rw [if_neg]
    rintro ⟨-, hle⟩
    rw [hint, hfp] at hle
    norm_num at hle
  exact C4_ponding_irreversible 100000 (1/15) (1/2) SoilKey.sand 0 1 (by norm_num) _ _ hi hj hpond

/-! ## Claim C10: infiltration capacity is non-increasing over a run -/

/-- C10 (implicit claim): within one run, the cumulative infiltrated depth `F`
is seeded at the positive epsilon 0.001 and never decreases along the state
sequence, and consequently the emitted `infRate` series (the rounded
`fp·perviousFrac`) is non-increasing over the storm. -/
theorem C10_infRate_non_increasing
    (totalDepth duration_hr imperviousFrac : ℚ) (soilKey : SoilKey)
    (htd : 0 ≤ totalDepth) (hdh : 0 < duration_hr)
    (hsoil : ValidSoil (GA_SOILS soilKey))
    (h0 : 0 ≤ imperviousFrac) (h1 : imperviousFrac ≤ 1) :
    List.Chain' (fun a b => a ≤ b)
      ((1/1000 : ℚ) ::
        (runSimulationTrace totalDepth duration_hr soilKey imperviousFrac).map
          (fun e => e.2.cumF)) ∧
    List.Chain' (fun a b => b.infRate ≤ a.infRate)
      (runSimulation totalDepth duration_hr soilKey imperviousFrac) := by
  have hP := goodParams_of totalDepth duration_hr soilKey imperviousFrac htd hdh hsoil h0 h1
  constructor
  · exact trace_chain_cumF hP _ _ (⟨1/1000, false, 0, 0, 0⟩ : SimState) (by norm_num)
  · exact trace_chain_infRate hP _ _ (⟨1/1000, false, 0, 0, 0⟩ : SimState) (by norm_num)

/-- Witness for C10: the 10 mm, 1-hour clay storm. -/
theorem C10_infRate_non_increasing_witness :
    List.Chain' (fun a b => a ≤ b)
      ((1/1000 : ℚ) ::
        (runSimulationTrace 10 1 SoilKey.clay (1/2)).map (fun e => e.2.cumF)) ∧
    List.Chain' (fun a b => b.infRate ≤ a.infRate)
      (runSimulation 10 1 SoilKey.clay (1/2)) :=
  C10_infRate_non_increasing 10 1 (1/2) SoilKey.clay (by norm_num) (by norm_num)
    (by refine ⟨?_, ?_, ?_⟩ <;> norm_num [GA_SOILS]) (by norm_num) (by norm_num)

lemma loglog_bounds {d1 i1 d2 i2 t : ℝ} (hd1 : 0 < d1) (hd : d1 < d2)
    (hi2 : 0 < i2) (hi : i2 ≤ i1) (ht1 : d1 ≤ t) (ht2 : t ≤ d2) :
    i2 ≤ loglogInterp d1 i1 d2 i2 t ∧ loglogInterp d1 i1 d2 i2 t ≤ i1 := by
  have hi1 : 0 < i1 := lt_of_lt_of_le hi2 hi
  have ht0 : 0 < t := lt_of_lt_of_le hd1 ht1
  have hc : 0 < Real.log d2 - Real.log d1 := sub_pos.mpr (Real.log_lt_log hd1 hd)
  have hΔ : Real.log i2 - Real.log i1 ≤ 0 := sub_nonpos.mpr (Real.log_le_log hi2 hi)
  have hu0 : 0 ≤ (Real.log t - Real.log d1) / (Real.log d2 - Real.log d1) :=
    div_nonneg (sub_nonneg.mpr (Real.log_le_log hd1 ht1)) hc.le
  have hu1 : (Real.log t - Real.log d1) / (Real.log d2 - Real.log d1) ≤ 1 :=
    (div_le_one hc).mpr (sub_le_sub_right (Real.log_le_log ht0 ht2) _)
  unfold loglogInterp
  constructor
  · have h1 : Real.log i2 ≤ Real.log i1 +
        (Real.log t - Real.log d1) / (Real.log d2 - Real.log d1) *
          (Real.log i2 - Real.log i1) := by
      nlinarith [mul_le_mul_of_nonpos_right hu1 hΔ]
    have h2 := Real.exp_le_exp.mpr h1
    rwa [Real.exp_log hi2] at h2
  · have h1 : Real.log i1 +
        (Real.log t - Real.log d1) / (Real.log d2 - Real.log d1) *
          (Real.log i2 - Real.log i1) ≤ Real.log i1 := by
      nlinarith [mul_nonpos_of_nonneg_of_nonpos hu0 hΔ]
    have h2 := Real.exp_le_exp.mpr h1
    rwa [Real.exp_log hi1] at h2

lemma loglog_anti {d1 i1 d2 i2 : ℝ} (hd1 : 0 < d1) (hd : d1 < d2)
    (hi2 : 0 < i2) (hi : i2 ≤ i1) {ta tb : ℝ}
    (hta : d1 ≤ ta) (hab : ta ≤ tb) (htb : tb ≤ d2) :
    loglogInterp d1 i1 d2 i2 tb ≤ loglogInterp d1 i1 d2 i2 ta := by
  have hta0 : 0 < ta := lt_of_lt_of_le hd1 hta
  have hc : 0 < Real.log d2 - Real.log d1 := sub_pos.mpr (Real.log_lt_log hd1 hd)
  have hΔ : Real.log i2 - Real.log i1 ≤ 0 := sub_nonpos.mpr (Real.log_le_log hi2 hi)
  have hu : (Real.log ta - Real.log d1) / (Real.log d2 - Real.log d1)
      ≤ (Real.log tb - Real.log d1) / (Real.log d2 - Real.log d1) :=
    div_le_div_of_nonneg_right (sub_le_sub_right (Real.log_le_log hta0 hab) _) hc.le
  unfold loglogInterp
  apply Real.exp_le_exp.mpr
  nlinarith [mul_le_mul_of_nonpos_right hu hΔ]

lemma idfChain_last_le :
    ∀ {l : List (ℝ × ℝ)} {x : ℝ × ℝ}, IdfChain (x :: l) →
      ((x :: l).getLastD (0, 0)).2 ≤ x.2 := by
  intro l
  induction l with
  | nil => intro x _; exact le_refl _
  | cons y l' ih =>
    intro x h
    rcases List.chain'_cons.mp h with ⟨⟨_, hxy⟩, hyl⟩
    calc ((x :: y :: l').getLastD (0, 0)).2
        = ((y :: l').getLastD (0, 0)).2 := by simp [List.getLastD_cons]
      _ ≤ y.2 := ih hyl
      _ ≤ x.2 := hxy

lemma idfLoop_bounds :
    ∀ {l : List (ℝ × ℝ)} {x : ℝ × ℝ} {t v : ℝ}, IdfChain (x :: l) →
      IdfPos (x :: l) → idfLoop t (x :: l) = some v →
      ((x :: l).getLastD (0, 0)).2 ≤ v ∧ v ≤ x.2 := by
  intro l
  induction l with
  | nil => intro x t v _ _ h; simp [idfLoop] at h
  | cons y l' ih =>
    intro x t v hc hpos h
    obtain ⟨d1, i1⟩ := x
    obtain ⟨d2, i2⟩ := y
    rcases List.chain'_cons.mp hc with ⟨⟨hxy1, hxy2⟩, hyl⟩
    have hd1 : 0 < d1 := (hpos (d1, i1) (by simp)).1
    have hi2 : 0 < i2 := (hpos (d2, i2) (by simp)).2
    rw [idfLoop] at h
    split_ifs at h with hseg
    · have hv := Option.some_injective _ h
      have hb := loglog_bounds hd1 hxy1 hi2 hxy2 hseg.1 hseg.2
      refine ⟨?_, hv ▸ hb.2⟩
      have hlast : ((((d2, i2) : ℝ × ℝ) :: l').getLastD (0, 0)).2 ≤ i2 :=
        idfChain_last_le hyl
      have : v = loglogInterp d1 i1 d2 i2 t := hv.symm
      simp only [List.getLastD_cons]
      simp only [List.getLastD_cons] at hlast
      rw [this]
      exact le_trans hlast hb.1
    · have hb := ih hyl (fun p hp => hpos p (List.mem_cons_of_mem _ hp)) h
      refine ⟨?_, (hb.2).trans hxy2⟩
      simpa [List.getLastD_cons] using hb.1

lemma idfLoop_none_of_lt :
    ∀ {l : List (ℝ × ℝ)} {x : ℝ × ℝ} {t : ℝ}, IdfChain (x :: l) → t < x.1 →
      idfLoop t (x :: l) = none := by
  intro l
  induction l with
  | nil => intro x t _ _; rfl
  | cons y l' ih =>
    intro x t hc ht
    obtain ⟨d1, i1⟩ := x
    obtain ⟨d2, i2⟩ := y
    rcases List.chain'_cons.mp hc with ⟨⟨hxy1, _⟩, hyl⟩
    rw [idfLoop]
    rw [if_neg (by rintro ⟨h1, _⟩; exact absurd h1 (not_le.mpr ht))]
    exact ih hyl (ht.trans hxy1)

lemma idfLoop_isSome :
    ∀ {l : List (ℝ × ℝ)} {x : ℝ × ℝ} {t : ℝ}, IdfChain (x :: l) → l ≠ [] →
      x.1 ≤ t → t ≤ ((x :: l).getLastD (0, 0)).1 →
      ∃ v, idfLoop t (x :: l) = some v := by
  intro l
  induction l with
  | nil => intro x t _ hne _ _; exact absurd rfl hne
  | cons y l' ih =>
    intro x t hc _ hxt htl
    obtain ⟨d1, i1⟩ := x
    obtain ⟨d2, i2⟩ := y
    rcases List.chain'_cons.mp hc with ⟨⟨hxy1, _⟩, hyl⟩
    rw [idfLoop]
    by_cases hseg : d1 ≤ t ∧ t ≤ d2
    · exact ⟨_, if_pos hseg⟩
    · have ht2 : d2 < t := by
        rcases not_and_or.mp hseg with h | h
        · exact absurd hxt h
        · exact not_le.mp h
      rw [if_neg hseg]
      rcases l' with _ | ⟨z, l''⟩
      · exfalso
        simp only [List.getLastD_cons, List.getLastD_nil] at htl
        exact absurd htl (not_le.mpr ht2)
      · refine ih hyl (by simp) ht2.le ?_
        simpa [List.getLastD_cons] using htl

lemma idfLoop_anti :
    ∀ {l : List (ℝ × ℝ)} {x : ℝ × ℝ} {ta tb va vb : ℝ}, IdfChain (x :: l) →
      IdfPos (x :: l) → ta ≤ tb →
      idfLoop ta (x :: l) = some va → idfLoop tb (x :: l) = some vb →
      vb ≤ va := by
  intro l
  induction l with
  | nil => intro x ta tb va vb _ _ _ ha _; simp [idfLoop] at ha
  | cons y l' ih =>
    intro x ta tb va vb hc hpos hab ha hb
    obtain ⟨d1, i1⟩ := x
    obtain ⟨d2, i2⟩ := y
    rcases List.chain'_cons.mp hc with ⟨⟨hxy1, hxy2⟩, hyl⟩
    have hd1 : 0 < d1 := (hpos (d1, i1) (by simp)).1
    have hi2 : 0 < i2 := (hpos (d2, i2) (by simp)).2
    have hpos' : IdfPos ((d2, i2) :: l') :=
      fun p hp => hpos p (List.mem_cons_of_mem _ hp)
    rw [idfLoop] at ha hb
    split_ifs at ha hb with hsa hsb hsb'
    · have hva := Option.some_injective _ ha
      have hvb := Option.some_injective _ hb
      rw [← hva, ← hvb]
      exact loglog_anti hd1 hxy1 hi2 hxy2 hsa.1 hab hsb.2
    · have hvb := (idfLoop_bounds hyl hpos' hb).2
      have hva := Option.some_injective _ ha
      have hbnd := loglog_bounds hd1 hxy1 hi2 hxy2 hsa.1 hsa.2
      rw [← hva]
      exact hvb.trans hbnd.1
    · rcases not_and_or.mp hsa with hlt | hgt
      · have hlt' : ta < d1 := not_le.mp hlt
        have : idfLoop ta ((d2, i2) :: l') = none :=
          idfLoop_none_of_lt hyl (by simpa using hlt'.trans hxy1)
        rw [this] at ha
        exact absurd ha (by simp)
      · exact absurd (hab.trans hsb'.2) hgt
    · exact ih hyl hpos' hab ha hb

lemma clampShape_low {ps : List (ℝ × ℝ)} {fb t : ℝ} (h : t ≤ ps.headI.1) :
    clampShape ps fb t = ps.headI.2 := by
  unfold clampShape
  rw [if_pos h]

lemma clampShape_high {ps : List (ℝ × ℝ)} {fb t : ℝ} (h1 : ps.headI.1 < t)
    (h2 : (ps.getLastD (0, 0)).1 ≤ t) :
    clampShape ps fb t = (ps.getLastD (0, 0)).2 := by
  unfold clampShape
  rw [if_neg (not_le.mpr h1), if_pos h2]

lemma idfLoop_pos :
    ∀ {l : List (ℝ × ℝ)} {t v : ℝ}, idfLoop t l = some v → 0 < v := by
  intro l
  induction l with
  | nil => intro t v h; simp [idfLoop] at h
  | cons x rest ih =>
    intro t v h
    match rest, h with
    | [], h => simp [idfLoop] at h
    | y :: rest', h =>
      obtain ⟨d1, i1⟩ := x
      obtain ⟨d2, i2⟩ := y
      rw [idfLoop] at h
      split_ifs at h with hseg
      · have hv := Option.some_injective _ h
        rw [← hv]
        exact Real.exp_pos _
      · exact ih h

lemma getLastD_mem_cons :
    ∀ (l : List (ℝ × ℝ)) (x : ℝ × ℝ), (x :: l).getLastD (0, 0) ∈ x :: l := by
  intro l
  induction l with
  | nil => intro x; simp [List.getLastD_cons]
  | cons y l' ih =>
    intro x
    have := ih y
    simp only [List.getLastD_cons]
    simp only [List.getLastD_cons] at this
    exact List.mem_cons_of_mem _ this

lemma clampShape_nonneg {ps : List (ℝ × ℝ)} {fb t : ℝ}
    (hp : IdfPos ps) (hfb : 0 ≤ fb) : 0 ≤ clampShape ps fb t := by
  unfold clampShape
  cases ps with
  | nil =>
    split_ifs
    · exact le_refl 0
    · exact le_refl 0
    · simpa [idfLoop] using hfb
  | cons x l =>
    split_ifs
    · exact (hp x (by simp)).2.le
    · exact (hp _ (getLastD_mem_cons l x)).2.le
    · cases h : idfLoop t (x :: l) with
      | none => simpa using hfb
      | some v => simpa using (idfLoop_pos h).le

lemma clampShape_anti (ps : List (ℝ × ℝ)) (fb : ℝ) (hc : IdfChain ps)
    (hp : IdfPos ps) (hlen : 2 ≤ ps.length) {t1 t2 : ℝ} (h : t1 ≤ t2) :
    clampShape ps fb t2 ≤ clampShape ps fb t1 := by
  match ps, hlen with
  | x :: y :: rest, _ =>
    have hne : (y :: rest) ≠ [] := by simp
    have hd0 : (x :: y :: rest).headI = x := rfl
    have hlast_le : (((x :: y :: rest).getLastD (0, 0))).2 ≤ x.2 := idfChain_last_le hc
    unfold clampShape
    rw [hd0]
    by_cases h2a : t2 ≤ x.1
    · rw [if_pos h2a, if_pos (h.trans h2a)]
    · rw [if_neg h2a]
      by_cases h1a : t1 ≤ x.1
      · rw [if_pos h1a]
        by_cases h2b : ((x :: y :: rest).getLastD (0, 0)).1 ≤ t2
        · rw [if_pos h2b]
          exact hlast_le
        · rw [if_neg h2b]
          obtain ⟨v2, hv2⟩ := idfLoop_isSome hc hne (not_le.mp h2a).le (not_le.mp h2b).le
          rw [hv2]
          simpa using (idfLoop_bounds hc hp hv2).2
      · rw [if_neg h1a]
        by_cases h1b : ((x :: y :: rest).getLastD (0, 0)).1 ≤ t1
        · rw [if_pos h1b, if_pos (h1b.trans h)]
        · rw [if_neg h1b]
          obtain ⟨v1, hv1⟩ := idfLoop_isSome hc hne (not_le.mp h1a).le (not_le.mp h1b).le
          rw [hv1]
          by_cases h2b : ((x :: y :: rest).getLastD (0, 0)).1 ≤ t2
          · rw [if_pos h2b]
            simpa using (idfLoop_bounds hc hp hv1).1
          · rw [if_neg h2b]
            obtain ⟨v2, hv2⟩ := idfLoop_isSome hc hne ((not_le.mp h1a).le.trans h)
              (not_le.mp h2b).le
            rw [hv2]
            simpa using idfLoop_anti hc hp h hv1 hv2

/-! ### Table validity instances -/

lemma idf2_chain : IdfChain ([((5:ℝ),(65.5:ℝ)),(10,45.4),(15,36.0),(30,23.7),(60,15.4),(120,9.91),(360,4.90),(720,3.13),(1440,2.00)]) := by
  norm_num [IdfChain, List.chain'_cons]

lemma idf2_pos : IdfPos ([((5:ℝ),(65.5:ℝ)),(10,45.4),(15,36.0),(30,23.7),(60,15.4),(120,9.91),(360,4.90),(720,3.13),(1440,2.00)]) := by
  intro p hp
  fin_cases hp <;> constructor <;> norm_num

lemma sim2_chain : IdfChain ([((5:ℝ),(82:ℝ)),(10,56),(15,45),(30,30),(60,18),(120,11),(360,5.0),(720,3.0),(1440,1.7)]) := by
  norm_num [IdfChain, List.chain'_cons]

lemma sim2_pos : IdfPos ([((5:ℝ),(82:ℝ)),(10,56),(15,45),(30,30),(60,18),(120,11),(360,5.0),(720,3.0),(1440,1.7)]) := by
  intro p hp
  fin_cases hp <;> constructor <;> norm_num

lemma idf5_chain : IdfChain ([((5:ℝ),(98.2:ℝ)),(10,67.7),(15,53.5),(30,35.1),(60,22.7),(120,14.5),(360,7.12),(720,4.53),(1440,2.88)]) := by
  norm_num [IdfChain, List.chain'_cons]

lemma idf5_pos : IdfPos ([((5:ℝ),(98.2:ℝ)),(10,67.7),(15,53.5),(30,35.1),(60,22.7),(120,14.5),(360,7.12),(720,4.53),(1440,2.88)]) := by
  intro p hp
  fin_cases hp <;> constructor <;> norm_num

lemma sim5_chain : IdfChain ([((5:ℝ),(110:ℝ)),(10,76),(15,61),(30,41),(60,25),(120,15),(360,6.8),(720,4.0),(1440,2.3)]) := by
  norm_num [IdfChain, List.chain'_cons]

lemma sim5_pos : IdfPos ([((5:ℝ),(110:ℝ)),(10,76),(15,61),(30,41),(60,25),(120,15),(360,6.8),(720,4.0),(1440,2.3)]) := by
  intro p hp
  fin_cases hp <;> constructor <;> norm_num

lemma idf10_chain : IdfChain ([((5:ℝ),(119.9:ℝ)),(10,82.6),(15,65.2),(30,42.7),(60,27.5),(120,17.6),(360,8.62),(720,5.48),(1440,3.48)]) := by
  norm_num [IdfChain, List.chain'_cons]

lemma idf10_pos : IdfPos ([((5:ℝ),(119.9:ℝ)),(10,82.6),(15,65.2),(30,42.7),(60,27.5),(120,17.6),(360,8.62),(720,5.48),(1440,3.48)]) := by
  intro p hp
  fin_cases hp <;> constructor <;> norm_num

lemma sim10_chain : IdfChain ([((5:ℝ),(128:ℝ)),(10,89),(15,72),(30,48),(60,29),(120,18),(360,8.0),(720,4.7),(1440,2.7)]) := by
  norm_num [IdfChain, List.chain'_cons]

lemma sim10_pos : IdfPos ([((5:ℝ),(128:ℝ)),(10,89),(15,72),(30,48),(60,29),(120,18),(360,8.0),(720,4.7),(1440,2.7)]) := by
  intro p hp
  fin_cases hp <;> constructor <;> norm_num

lemma idf25_chain : IdfChain ([((5:ℝ),(147.1:ℝ)),(10,101.1),(15,79.7),(30,52.1),(60,33.5),(120,21.4),(360,10.4),(720,6.62),(1440,4.19)]) := by
  norm_num [IdfChain, List.chain'_cons]

lemma idf25_pos : IdfPos ([((5:ℝ),(147.1:ℝ)),(10,101.1),(15,79.7),(30,52.1),(60,33.5),(120,21.4),(360,10.4),(720,6.62),(1440,4.19)]) := by
  intro p hp
  fin_cases hp <;> constructor <;> norm_num

lemma sim25_chain : IdfChain ([((5:ℝ),(153:ℝ)),(10,107),(15,86),(30,58),(60,35),(120,21),(360,9.6),(720,5.6),(1440,3.3)]) := by
  norm_num [IdfChain, List.chain'_cons]

lemma sim25_pos : IdfPos ([((5:ℝ),(153:ℝ)),(10,107),(15,86),(30,58),(60,35),(120,21),(360,9.6),(720,5.6),(1440,3.3)]) := by
  intro p hp
  fin_cases hp <;> constructor <;> norm_num

lemma idf50_chain : IdfChain ([((5:ℝ),(167.4:ℝ)),(10,115.0),(15,90.6),(30,59.2),(60,38.1),(120,24.3),(360,11.8),(720,7.49),(1440,4.75)]) := by
  norm_num [IdfChain, List.chain'_cons]

lemma idf50_pos : IdfPos ([((5:ℝ),(167.4:ℝ)),(10,115.0),(15,90.6),(30,59.2),(60,38.1),(120,24.3),(360,11.8),(720,7.49),(1440,4.75)]) := by
  intro p hp
  fin_cases hp <;> constructor <;> norm_num

lemma sim50_chain : IdfChain ([((5:ℝ),(172:ℝ)),(10,121),(15,97),(30,66),(60,40),(120,24),(360,11),(720,6.4),(1440,3.7)]) := by
  norm_num [IdfChain, List.chain'_cons]

lemma sim50_pos : IdfPos ([((5:ℝ),(172:ℝ)),(10,121),(15,97),(30,66),(60,40),(120,24),(360,11),(720,6.4),(1440,3.7)]) := by
  intro p hp
  fin_cases hp <;> constructor <;> norm_num

lemma idf100_chain : IdfChain ([((5:ℝ),(187.5:ℝ)),(10,128.7),(15,101.4),(30,66.2),(60,42.5),(120,27.1),(360,13.2),(720,8.35),(1440,5.29)]) := by
  norm_num [IdfChain, List.chain'_cons]

lemma idf100_pos : IdfPos ([((5:ℝ),(187.5:ℝ)),(10,128.7),(15,101.4),(30,66.2),(60,42.5),(120,27.1),(360,13.2),(720,8.35),(1440,5.29)]) := by
  intro p hp
  fin_cases hp <;> constructor <;> norm_num

lemma sim100_chain : IdfChain ([((5:ℝ),(192:ℝ)),(10,135),(15,109),(30,74),(60,44),(120,27),(360,12),(720,7.2),(1440,4.2)]) := by
  norm_num [IdfChain, List.chain'_cons]

lemma sim100_pos : IdfPos ([((5:ℝ),(192:ℝ)),(10,135),(15,109),(30,74),(60,44),(120,27),(360,12),(720,7.2),(1440,4.2)]) := by
  intro p hp
  fin_cases hp <;> constructor <;> norm_num

/-! ## Claim C7: IDF intensity is non-increasing in duration -/

/-- C7: for every return period present in the IDF tables and any pair of
durations `d1 ≤ d2`, the interpolated intensity at `d1` is at least that at
`d2`, both for the design-storm calculator's `interpolateIntensity` and for
the storm simulator's `getIntensity` (the cost view's copy coincides with the
latter, see `C9_two_getIntensity_copies_agree`). -/
theorem C7_idf_antitone :
    ∀ rp ∈ IDF_RETURN_PERIODS, ∀ d1 d2 : ℝ, d1 ≤ d2 →
      interpolateIntensity d2 rp ≤ interpolateIntensity d1 rp ∧
      getIntensity rp d2 ≤ getIntensity rp d1 := by
  intro rp hrp d1 d2 h
  fin_cases hrp

  · constructor
    · rw [show ∀ t : ℝ, interpolateIntensity t 2 = clampShape [(5,65.5),(10,45.4),(15,36.0),(30,23.7),(60,15.4),(120,9.91),(360,4.90),(720,3.13),(1440,2.00)] 65.5 t from
        fun _ => rfl]
      exact clampShape_anti _ _ idf2_chain idf2_pos (by simp) h
    · rw [show ∀ t : ℝ, getIntensity 2 t = clampShape [(5,82),(10,56),(15,45),(30,30),(60,18),(120,11),(360,5.0),(720,3.0),(1440,1.7)] 0 t from fun _ => rfl]
      exact clampShape_anti _ _ sim2_chain sim2_pos (by simp) h

  · constructor
    · rw [show ∀ t : ℝ, interpolateIntensity t 5 = clampShape [(5,98.2),(10,67.7),(15,53.5),(30,35.1),(60,22.7),(120,14.5),(360,7.12),(720,4.53),(1440,2.88)] 98.2 t from
        fun _ => rfl]
      exact clampShape_anti _ _ idf5_chain idf5_pos (by simp) h
    · rw [show ∀ t : ℝ, getIntensity 5 t = clampShape [(5,110),(10,76),(15,61),(30,41),(60,25),(120,15),(360,6.8),(720,4.0),(1440,2.3)] 0 t from fun _ => rfl]
      exact clampShape_anti _ _ sim5_chain sim5_pos (by simp) h

  · constructor
    · rw [show ∀ t : ℝ, interpolateIntensity t 10 = clampShape [(5,119.9),(10,82.6),(15,65.2),(30,42.7),(60,27.5),(120,17.6),(360,8.62),(720,5.48),(1440,3.48)] 119.9 t from
        fun _ => rfl]
      exact clampShape_anti _ _ idf10_chain idf10_pos (by simp) h
    · rw [show ∀ t : ℝ, getIntensity 10 t = clampShape [(5,128),(10,89),(15,72),(30,48),(60,29),(120,18),(360,8.0),(720,4.7),(1440,2.7)] 0 t from fun _ => rfl]
      exact clampShape_anti _ _ sim10_chain sim10_pos (by simp) h

  · constructor
    · rw [show ∀ t : ℝ, interpolateIntensity t 25 = clampShape [(5,147.1),(10,101.1),(15,79.7),(30,52.1),(60,33.5),(120,21.4),(360,10.4),(720,6.62),(1440,4.19)] 147.1 t from
        fun _ => rfl]
      exact clampShape_anti _ _ idf25_chain idf25_pos (by simp) h
    · rw [show ∀ t : ℝ, getIntensity 25 t = clampShape [(5,153),(10,107),(15,86),(30,58),(60,35),(120,21),(360,9.6),(720,5.6),(1440,3.3)] 0 t from fun _ => rfl]
      exact clampShape_anti _ _ sim25_chain sim25_pos (by simp) h

  · constructor
    · rw [show ∀ t : ℝ, interpolateIntensity t 50 = clampShape [(5,167.4),(10,115.0),(15,90.6),(30,59.2),(60,38.1),(120,24.3),(360,11.8),(720,7.49),(1440,4.75)] 167.4 t from
        fun _ => rfl]
      exact clampShape_anti _ _ idf50_chain idf50_pos (by simp) h
    · rw [show ∀ t : ℝ, getIntensity 50 t = clampShape [(5,172),(10,121),(15,97),(30,66),(60,40),(120,24),(360,11),(720,6.4),(1440,3.7)] 0 t from fun _ => rfl]
      exact clampShape_anti _ _ sim50_chain sim50_pos (by simp) h

  · constructor
    · rw [show ∀ t : ℝ, interpolateIntensity t 100 = clampShape [(5,187.5),(10,128.7),(15,101.4),(30,66.2),(60,42.5),(120,27.1),(360,13.2),(720,8.35),(1440,5.29)] 187.5 t from
        fun _ => rfl]
      exact clampShape_anti _ _ idf100_chain idf100_pos (by simp) h
    · rw [show ∀ t : ℝ, getIntensity 100 t = clampShape [(5,192),(10,135),(15,109),(30,74),(60,44),(120,27),(360,12),(720,7.2),(1440,4.2)] 0 t from fun _ => rfl]
      exact clampShape_anti _ _ sim100_chain sim100_pos (by simp) h

/-- Witness for C7 at return period 100, durations 10 and 60 minutes. -/
theorem C7_idf_antitone_witness :
    interpolateIntensity 60 100 ≤ interpolateIntensity 10 100 ∧
    getIntensity 100 60 ≤ getIntensity 100 10 :=
  C7_idf_antitone 100 (by simp [IDF_RETURN_PERIODS]) 10 60 (by norm_num)

/-! ## Claim C6: IDF duration clamping at the table edges -/

/-- C6: for every return period key, a requested duration at or below the
smallest anchor (5 min) returns exactly that anchor's tabulated intensity and
a duration at or above the largest anchor (1440 min) returns exactly that
anchor's intensity — for both `interpolateIntensity` and `getIntensity`. -/
theorem C6_idf_clamp (d : ℝ) :
    (d ≤ 5 →
      interpolateIntensity d 2 = 65.5 ∧
      interpolateIntensity d 5 = 98.2 ∧
      interpolateIntensity d 10 = 119.9 ∧
      interpolateIntensity d 25 = 147.1 ∧
      interpolateIntensity d 50 = 167.4 ∧
      interpolateIntensity d 100 = 187.5 ∧
      getIntensity 2 d = 82 ∧
      getIntensity 5 d = 110 ∧
      getIntensity 10 d = 128 ∧
      getIntensity 25 d = 153 ∧
      getIntensity 50 d = 172 ∧
      getIntensity 100 d = 192) ∧
    (1440 ≤ d →
      interpolateIntensity d 2 = 2.00 ∧
      interpolateIntensity d 5 = 2.88 ∧
      interpolateIntensity d 10 = 3.48 ∧
      interpolateIntensity d 25 = 4.19 ∧
      interpolateIntensity d 50 = 4.75 ∧
      interpolateIntensity d 100 = 5.29 ∧
      getIntensity 2 d = 1.7 ∧
      getIntensity 5 d = 2.3 ∧
      getIntensity 10 d = 2.7 ∧
      getIntensity 25 d = 3.3 ∧
      getIntensity 50 d = 3.7 ∧
      getIntensity 100 d = 4.2) := by
  refine ⟨fun hd => ?_, fun hd => ?_⟩
  · refine ⟨?_, ?_, ?_, ?_, ?_, ?_, ?_, ?_, ?_, ?_, ?_, ?_⟩
    · rw [show ∀ t : ℝ, interpolateIntensity t 2 = clampShape [(5,65.5),(10,45.4),(15,36.0),(30,23.7),(60,15.4),(120,9.91),(360,4.90),(720,3.13),(1440,2.00)] 65.5 t from
        fun _ => rfl, clampShape_low (by simpa using hd)]
      simp
    · rw [show ∀ t : ℝ, interpolateIntensity t 5 = clampShape [(5,98.2),(10,67.7),(15,53.5),(30,35.1),(60,22.7),(120,14.5),(360,7.12),(720,4.53),(1440,2.88)] 98.2 t from
        fun _ => rfl, clampShape_low (by simpa using hd)]
      simp
    · rw [show ∀ t : ℝ, interpolateIntensity t 10 = clampShape [(5,119.9),(10,82.6),(15,65.2),(30,42.7),(60,27.5),(120,17.6),(360,8.62),(720,5.48),(1440,3.48)] 119.9 t from
        fun _ => rfl, clampShape_low (by simpa using hd)]
      simp
    · rw [show ∀ t : ℝ, interpolateIntensity t 25 = clampShape [(5,147.1),(10,101.1),(15,79.7),(30,52.1),(60,33.5),(120,21.4),(360,10.4),(720,6.62),(1440,4.19)] 147.1 t from
        fun _ => rfl, clampShape_low (by simpa using hd)]
      simp
    · rw [show ∀ t : ℝ, interpolateIntensity t 50 = clampShape [(5,167.4),(10,115.0),(15,90.6),(30,59.2),(60,38.1),(120,24.3),(360,11.8),(720,7.49),(1440,4.75)] 167.4 t from
        fun _ => rfl, clampShape_low (by simpa using hd)]
      simp
    · rw [show ∀ t : ℝ, interpolateIntensity t 100 = clampShape [(5,187.5),(10,128.7),(15,101.4),(30,66.2),(60,42.5),(120,27.1),(360,13.2),(720,8.35),(1440,5.29)] 187.5 t from
        fun _ => rfl, clampShape_low (by simpa using hd)]
      simp
    · rw [show ∀ t : ℝ, getIntensity 2 t = clampShape [(5,82),(10,56),(15,45),(30,30),(60,18),(120,11),(360,5.0),(720,3.0),(1440,1.7)] 0 t from
        fun _ => rfl, clampShape_low (by simpa using hd)]
      simp
    · rw [show ∀ t : ℝ, getIntensity 5 t = clampShape [(5,110),(10,76),(15,61),(30,41),(60,25),(120,15),(360,6.8),(720,4.0),(1440,2.3)] 0 t from
        fun _ => rfl, clampShape_low (by simpa using hd)]
      simp
    · rw [show ∀ t : ℝ, getIntensity 10 t = clampShape [(5,128),(10,89),(15,72),(30,48),(60,29),(120,18),(360,8.0),(720,4.7),(1440,2.7)] 0 t from
        fun _ => rfl, clampShape_low (by simpa using hd)]
      simp
    · rw [show ∀ t : ℝ, getIntensity 25 t = clampShape [(5,153),(10,107),(15,86),(30,58),(60,35),(120,21),(360,9.6),(720,5.6),(1440,3.3)] 0 t from
        fun _ => rfl, clampShape_low (by simpa using hd)]
      simp
    · rw [show ∀ t : ℝ, getIntensity 50 t = clampShape [(5,172),(10,121),(15,97),(30,66),(60,40),(120,24),(360,11),(720,6.4),(1440,3.7)] 0 t from
        fun _ => rfl, clampShape_low (by simpa using hd)]
      simp
    · rw [show ∀ t : ℝ, getIntensity 100 t = clampShape [(5,192),(10,135),(15,109),(30,74),(60,44),(120,27),(360,12),(720,7.2),(1440,4.2)] 0 t from
        fun _ => rfl, clampShape_low (by simpa using hd)]
      simp
  · refine ⟨?_, ?_, ?_, ?_, ?_, ?_, ?_, ?_, ?_, ?_, ?_, ?_⟩
    · rw [show ∀ t : ℝ, interpolateIntensity t 2 = clampShape [(5,65.5),(10,45.4),(15,36.0),(30,23.7),(60,15.4),(120,9.91),(360,4.90),(720,3.13),(1440,2.00)] 65.5 t from
        fun _ => rfl, clampShape_high (by simp; linarith) (by simpa using hd)]
      simp
    · rw [show ∀ t : ℝ, interpolateIntensity t 5 = clampShape [(5,98.2),(10,67.7),(15,53.5),(30,35.1),(60,22.7),(120,14.5),(360,7.12),(720,4.53),(1440,2.88)] 98.2 t from
        fun _ => rfl, clampShape_high (by simp; linarith) (by simpa using hd)]
      simp
    · rw [show ∀ t : ℝ, interpolateIntensity t 10 = clampShape [(5,119.9),(10,82.6),(15,65.2),(30,42.7),(60,27.5),(120,17.6),(360,8.62),(720,5.48),(1440,3.48)] 119.9 t from
        fun _ => rfl, clampShape_high (by simp; linarith) (by simpa using hd)]
      simp
    · rw [show ∀ t : ℝ, interpolateIntensity t 25 = clampShape [(5,147.1),(10,101.1),(15,79.7),(30,52.1),(60,33.5),(120,21.4),(360,10.4),(720,6.62),(1440,4.19)] 147.1 t from
        fun _ => rfl, clampShape_high (by simp; linarith) (by simpa using hd)]
      simp
    · rw [show ∀ t : ℝ, interpolateIntensity t 50 = clampShape [(5,167.4),(10,115.0),(15,90.6),(30,59.2),(60,38.1),(120,24.3),(360,11.8),(720,7.49),(1440,4.75)] 167.4 t from
        fun _ => rfl, clampShape_high (by simp; linarith) (by simpa using hd)]
      simp
    · rw [show ∀ t : ℝ, interpolateIntensity t 100 = clampShape [(5,187.5),(10,128.7),(15,101.4),(30,66.2),(60,42.5),(120,27.1),(360,13.2),(720,8.35),(1440,5.29)] 187.5 t from
        fun _ => rfl, clampShape_high (by simp; linarith) (by simpa using hd)]
      simp
    · rw [show ∀ t : ℝ, getIntensity 2 t = clampShape [(5,82),(10,56),(15,45),(30,30),(60,18),(120,11),(360,5.0),(720,3.0),(1440,1.7)] 0 t from
        fun _ => rfl, clampShape_high (by simp; linarith) (by simpa using hd)]
      simp
    · rw [show ∀ t : ℝ, getIntensity 5 t = clampShape [(5,110),(10,76),(15,61),(30,41),(60,25),(120,15),(360,6.8),(720,4.0),(1440,2.3)] 0 t from
        fun _ => rfl, clampShape_high (by simp; linarith) (by simpa using hd)]
      simp
    · rw [show ∀ t : ℝ, getIntensity 10 t = clampShape [(5,128),(10,89),(15,72),(30,48),(60,29),(120,18),(360,8.0),(720,4.7),(1440,2.7)] 0 t from
        fun _ => rfl, clampShape_high (by simp; linarith) (by simpa using hd)]
      simp
    · rw [show ∀ t : ℝ, getIntensity 25 t = clampShape [(5,153),(10,107),(15,86),(30,58),(60,35),(120,21),(360,9.6),(720,5.6),(1440,3.3)] 0 t from
        fun _ => rfl, clampShape_high (by simp; linarith) (by simpa using hd)]
      simp
    · rw [show ∀ t : ℝ, getIntensity 50 t = clampShape [(5,172),(10,121),(15,97),(30,66),(60,40),(120,24),(360,11),(720,6.4),(1440,3.7)] 0 t from
        fun _ => rfl, clampShape_high (by simp; linarith) (by simpa using hd)]
      simp
    · rw [show ∀ t : ℝ, getIntensity 100 t = clampShape [(5,192),(10,135),(15,109),(30,74),(60,44),(120,27),(360,12),(720,7.2),(1440,4.2)] 0 t from
        fun _ => rfl, clampShape_high (by simp; linarith) (by simpa using hd)]
      simp

/-- Witness for C6 at durations 3 (below the low anchor) and 2000 (above the
high anchor), return period 100. -/
theorem C6_idf_clamp_witness :
    interpolateIntensity 3 100 = 187.5 ∧ getIntensity 100 2000 = 4.2 :=
  ⟨((C6_idf_clamp 3).1 (by norm_num)).2.2.2.2.2.1,
   ((((((((((((C6_idf_clamp 2000).2 (by norm_num)).2).2).2).2).2).2).2).2).2).2).2⟩

/-! ## Claim C9: the three IDF interpolation copies -/

/-- C9 fails as stated: at return period 2 and duration 5 minutes the
design-storm calculator's `interpolateIntensity` returns its table's anchor
65.5 mm/hr, while the simulator's `getIntensity` returns 82 mm/hr — the two
tables differ, so the three routines do not all agree. -/
theorem C9_counterexample : interpolateIntensity 5 2 ≠ getIntensity 2 5 := by
  have h1 : interpolateIntensity 5 2 = 65.5 := by
    rw [show ∀ t : ℝ, interpolateIntensity t 2 =
        clampShape [(5,65.5),(10,45.4),(15,36.0),(30,23.7),(60,15.4),(120,9.91),(360,4.90),(720,3.13),(1440,2.00)]
          65.5 t from fun _ => rfl,
      clampShape_low (by simp)]
    simp
  have h2 : getIntensity 2 5 = 82 := by
    rw [show ∀ t : ℝ, getIntensity 2 t =
        clampShape [(5,82),(10,56),(15,45),(30,30),(60,18),(120,11),(360,5.0),(720,3.0),(1440,1.7)]
          0 t from fun _ => rfl,
      clampShape_low (by simp)]
    simp
  rw [h1, h2]
  norm_num

/-- C9 (amended): of the three duplicated IDF interpolation routines, the two
`getIntensity` copies (storm simulator and cost-analysis view) agree at every
return period and duration — they are the same function over identical
tables; the design-storm calculator's `interpolateIntensity` uses a different
table and differs (see `C9_counterexample`). -/
theorem C9_two_getIntensity_copies_agree :
    ∀ (rp : ℕ) (dur : ℝ), getIntensityCost rp dur = getIntensity rp dur :=
  fun _ _ => rfl

/-- C5 fails as stated: on the simulator's impervious-fraction path the
building area is *not* clamped to 85% of the lot before the arithmetic. At
lot 100 m², building 200 m², pavement 0, the code yields 0.95, whereas
feeding the 85%-clamped building area (85 m²) yields 0.85 — so no such clamp
happens on this path. -/
theorem C5_counterexample :
    imperviousFracSim 100 200 0 ≠ imperviousFracSim 100 (min 200 (100 * 0.85)) 0 := by
  norm_num [imperviousFracSim, min_def]

/-- C5 (amended): the composite-coefficient path does clamp the building area
to at most 85% of the lot before any area arithmetic (clamping beforehand is
a no-op, and the effective building area never exceeds `lot * 0.85`); the
simulator's impervious-fraction path uses the raw building area and instead
caps the resulting fraction at 0.95. -/
theorem C5_building_clamp :
    (∀ (lotSize buildingArea pavementPct : ℝ) (lid : LIDState),
      dcC lotSize buildingArea pavementPct lid =
        dcC lotSize (min buildingArea (lotSize * 0.85)) pavementPct lid) ∧
    (∀ lotSize buildingArea : ℝ,
      clampedBuilding lotSize buildingArea ≤ lotSize * 0.85) ∧
    (∀ lot bldg paveFrac : ℚ, imperviousFracSim lot bldg paveFrac ≤ 0.95) := by
  refine ⟨?_, ?_, ?_⟩
  · intro lotSize buildingArea pavementPct lid
    have h : clampedBuilding lotSize (min buildingArea (lotSize * 0.85))
        = clampedBuilding lotSize buildingArea := by
      unfold clampedBuilding
      rw [min_assoc, min_self]
    unfold dcC dcLawnArea
    rw [h]
  · intro lotSize buildingArea
    exact min_le_right _ _
  · intro lot bldg paveFrac
    unfold imperviousFracSim
    split_ifs
    · exact min_le_right _ _
    · norm_num

lemma getLastD_mem {α : Type*} :
    ∀ (l : List α) (x d : α), (x :: l).getLastD d ∈ x :: l := by
  intro l
  induction l with
  | nil => intro x d; simp [List.getLastD_cons]
  | cons y l' ih =>
    intro x d
    have := ih y d
    simp only [List.getLastD_cons]
    simp only [List.getLastD_cons] at this
    exact List.mem_cons_of_mem _ this

lemma IDF_INTENSITIES_pos :
    ∀ (rp : ℕ) (is : List ℝ), IDF_INTENSITIES rp = some is → ∀ x ∈ is, 0 < x := by
  intro rp is h
  unfold IDF_INTENSITIES at h
  split at h
  all_goals try exact Option.noConfusion h
  all_goals
    have h2 := Option.some_injective _ h
  all_goals subst h2
  all_goals intro x hx
  all_goals fin_cases hx <;> norm_num

lemma interpolateIntensity_nonneg (tc : ℝ) (rp : ℕ) :
    0 ≤ interpolateIntensity tc rp := by
  unfold interpolateIntensity
  cases hIs : IDF_INTENSITIES rp with
  | none => norm_num
  | some is =>
    have hpos := IDF_INTENSITIES_pos rp is hIs
    show 0 ≤
      if tc ≤ IDF_DURATIONS.headI then is.headI
      else if IDF_DURATIONS.getLastD 0 ≤ tc then is.getLastD 0
      else (idfLoop tc (IDF_DURATIONS.zip is)).getD is.headI
    split_ifs
    · rcases is with _ | ⟨a, is'⟩
      · exact le_refl 0
      · simpa using (hpos a (by simp)).le
    · rcases is with _ | ⟨a, is'⟩
      · simp
      · exact (hpos _ (getLastD_mem is' a 0)).le
    · cases h : idfLoop tc (IDF_DURATIONS.zip is) with
      | none =>
        rcases is with _ | ⟨a, is'⟩
        · exact le_refl 0
        · simpa using (hpos a (by simp)).le
      | some v => simpa using (idfLoop_pos h).le

/-- C8: at the spec's concrete site (lot 450 m², building 180 m², pavement
15%), enabling only the green roof strictly lowers the composite runoff
coefficient (0.5175 vs 0.6275), and for every tabulated return period the
LID peak discharge and selected pipe diameter are at most the baseline
values. -/
theorem C8_green_roof_lowers_design :
    dcC 450 180 15 greenRoofOnly < dcC 450 180 15 noLid ∧
    ∀ rp ∈ IDF_RETURN_PERIODS,
      dcQlid 450 180 15 greenRoofOnly rp ≤ dcQbase 450 180 15 rp ∧
      dcPipeLid 450 180 15 greenRoofOnly rp ≤ dcPipeBase 450 180 15 rp := by
  have hC : dcC 450 180 15 greenRoofOnly < dcC 450 180 15 noLid := by
    norm_num [dcC, compositeC, clampedBuilding, dcPavementArea, dcLawnArea,
      greenRoofOnly, noLid, C_ROOF, C_PAVEMENT, C_LAWN, C_GREEN_ROOF,
      min_def, max_def]
  refine ⟨hC, ?_⟩
  intro rp hrp
  have hi := interpolateIntensity_nonneg (calculateTc 450) rp
  have hQ : dcQlid 450 180 15 greenRoofOnly rp ≤ dcQbase 450 180 15 rp := by
    have hbq : dcQlid 450 180 15 greenRoofOnly rp
        = dcC 450 180 15 greenRoofOnly * interpolateIntensity (calculateTc 450) rp *
            (450 / 10000) / 360 := by
      unfold dcQlid
      simp [greenRoofOnly]
    rw [hbq]
    unfold dcQbase
    have h1 : dcC 450 180 15 greenRoofOnly * interpolateIntensity (calculateTc 450) rp
        ≤ dcC 450 180 15 noLid * interpolateIntensity (calculateTc 450) rp :=
      mul_le_mul_of_nonneg_right hC.le hi
    have h2 := mul_le_mul_of_nonneg_right h1 (show (0:ℝ) ≤ 450 / 10000 by norm_num)
    exact div_le_div_of_nonneg_right h2 (by norm_num)
  exact ⟨hQ, roundUpPipe_mono (requiredPipeDiameter_mono hQ)⟩

/-- Witness for C8 at the governing 100-year return period. -/
theorem C8_green_roof_lowers_design_witness :
    dcQlid 450 180 15 greenRoofOnly 100 ≤ dcQbase 450 180 15 100 ∧
    dcPipeLid 450 180 15 greenRoofOnly 100 ≤ dcPipeBase 450 180 15 100 :=
  C8_green_roof_lowers_design.2 100 (by simp [IDF_RETURN_PERIODS])

end Hacked2026
